import Mathlib

/-!
Verification of the Monkey front end (lexer + Pratt parser).

Shallow embedding of `src/lexer/lexer.go` and `src/parser/parser.go`
(the second, error-accumulating parser in that file is the one embedded:
it supersedes the earlier error-free draft that precedes it).
Source text is a list of bytes (here `Char`, the source supports only
single-byte ASCII characters); Go's `int` cursor fields are `Nat`
(they start at 0 and only grow).  A Go runtime panic (out-of-range
string index) is modelled as `Option.none` / `Fault.panicked`; loops
that the Go code runs without a static bound are given explicit fuel, and
exhausting the fuel is `Fault.outOfFuel`.

The `token` and `ast` Go packages are not part of the source tree we
were given (only the lexer, parser and repl are); those two data-only
models are reconstructed from the specification and marked
`Modelled from the spec:` below.
-/

/-- Modelled from the spec: the missing `token` package's closed enumeration of
token kinds (end-of-input, illegal, identifier, integer literal, the fixed
operator/punctuation set, and the keywords `let` and `return`). -/
inductive TokenType where
  | ILLEGAL
  | EOF
  | IDENT
  | INT
  | ASSIGN
  | PLUS
  | MINUS
  | BANG
  | ASTERISK
  | SLASH
  | LT
  | GT
  | EQ
  | NOT_EQ
  | COMMA
  | SEMICOLON
  | LPAREN
  | RPAREN
  | LBRACE
  | RBRACE
  | LET
  | RETURN
deriving DecidableEq, BEq, Repr

/-- Modelled from the spec: a token is the immutable pair of a kind and the
exact source substring (`Type` and `Literal` in the Go `token` package). -/
structure Token where
  type : TokenType
  literal : List Char
deriving DecidableEq, BEq, Repr

/-- Modelled from the spec: how a token kind prints inside a diagnostic
(`%s` on a `token.TokenType`): operator and punctuation kinds print as their
source text, the named kinds as their upper-case name. -/
def ttString : TokenType → List Char
  | .ILLEGAL => [ 'I', 'L', 'L', 'E', 'G', 'A', 'L' ]
  | .EOF => [ 'E', 'O', 'F' ]
  | .IDENT => [ 'I', 'D', 'E', 'N', 'T' ]
  | .INT => [ 'I', 'N', 'T' ]
  | .ASSIGN => [ '=' ]
  | .PLUS => [ '+' ]
  | .MINUS => [ '-' ]
  | .BANG => [ '!' ]
  | .ASTERISK => [ '*' ]
  | .SLASH => [ '/' ]
  | .LT => [ '<' ]
  | .GT => [ '>' ]
  | .EQ => [ '=', '=' ]
  | .NOT_EQ => [ '!', '=' ]
  | .COMMA => [ ',' ]
  | .SEMICOLON => [ ';' ]
  | .LPAREN => [ '(' ]
  | .RPAREN => [ ')' ]
  | .LBRACE => [ '{' ]
  | .RBRACE => [ '}' ]
  | .LET => [ 'L', 'E', 'T' ]
  | .RETURN => [ 'R', 'E', 'T', 'U', 'R', 'N' ]

/-- Convenience: the characters of a Lean string literal, used to write
source inputs and expected literals/diagnostics. -/
def strChars (s : String) : List Char := s.data

/-- The ASCII NUL sentinel the lexer uses for "no character / end of input"
(`l.ch = 0` in Go). -/
def nul : Char := Char.ofNat 0

/-- Modelled from the spec: `token.LookupIdent`, the pure keyword-vs-identifier
classification consulted once per scanned word (keywords in scope: `let`,
`return`). -/
def LookupIdent (lit : List Char) : TokenType :=
  if lit = strChars "let" then .LET
  else if lit = strChars "return" then .RETURN
  else .IDENT

/-- `lexer.Lexer`: the scanner cursor state over the immutable input. -/
structure Lexer where
  input : List Char
  position : Nat
  readPosition : Nat
  ch : Char
deriving DecidableEq, Repr

/-- `lexer.readChar` (lexer.go:20-31): load the character at `readPosition`
(or NUL past the end) and advance both cursors. -/
def readChar (l : Lexer) : Lexer :=
  let c := if l.readPosition ≥ l.input.length then nul else l.input.getD l.readPosition nul
  { l with ch := c, position := l.readPosition, readPosition := l.readPosition + 1 }

/-- `lexer.New` (lexer.go:12-16): zero-value struct with the input, then one
`readChar` to populate the cursor. -/
def lexerNew (input : List Char) : Lexer :=
  readChar { input := input, position := 0, readPosition := 0, ch := nul }

/-- `lexer.peakChar` (lexer.go:35-41), exactly as written: the bounds check
is on `position`, but the index read is `readPosition`; `none` models the Go
out-of-range panic when `position < len(input) ≤ readPosition`. -/
def peakChar (l : Lexer) : Option Char :=
  if l.position ≥ l.input.length then some nul
  else l.input.get? l.readPosition

/-- Whitespace set of `lexer.skipWhitespace` (lexer.go:115). -/
def isWhitespaceCh (c : Char) : Bool :=
  c = ' ' || c = '\t' || c = '\n' || c = '\r'

/-- The loop of `lexer.skipWhitespace`, with fuel.  From any state the loop
stops after at most `input.length + 2` iterations (each `readChar` puts
`position` at the old `readPosition` and then increments it past the end,
where `ch` is NUL, which is not whitespace), so the fuel used below never
runs out and the model agrees with the Go loop everywhere. -/
def skipWsGo : Nat → Lexer → Lexer
  | 0, l => l
  | f + 1, l => if isWhitespaceCh l.ch then skipWsGo f (readChar l) else l

/-- `lexer.skipWhitespace` (lexer.go:114-118). -/
def skipWhitespace (l : Lexer) : Lexer :=
  skipWsGo (l.input.length + 3) l

/-- `lexer.isLetter` (lexer.go:122-124). -/
def isLetter (c : Char) : Bool :=
  ('a' ≤ c && c ≤ 'z') || ('A' ≤ c && c ≤ 'Z') || c = '_'

/-- `lexer.isDigit` (lexer.go:137-139). -/
def isDigit (c : Char) : Bool :=
  '0' ≤ c && c ≤ '9'

/-- Go string slicing `input[a:b]`. -/
def sliceChars (input : List Char) (a b : Nat) : List Char :=
  (input.drop a).take (b - a)

/-- The loop of `lexer.readIdentifier`, with (always sufficient) fuel, as in
`skipWsGo`. -/
def readIdentGo : Nat → Lexer → Lexer
  | 0, l => l
  | f + 1, l => if isLetter l.ch then readIdentGo f (readChar l) else l

/-- `lexer.readIdentifier` (lexer.go:126-135): scan letters greedily, return
the scanned substring together with the advanced lexer. -/
def readIdentifier (l : Lexer) : List Char × Lexer :=
  let l2 := readIdentGo (l.input.length + 3) l
  (sliceChars l.input l.position l2.position, l2)

/-- The loop of `lexer.readNumber`, with (always sufficient) fuel. -/
def readNumberGo : Nat → Lexer → Lexer
  | 0, l => l
  | f + 1, l => if isDigit l.ch then readNumberGo f (readChar l) else l

/-- `lexer.readNumber` (lexer.go:141-150). -/
def readNumber (l : Lexer) : List Char × Lexer :=
  let l2 := readNumberGo (l.input.length + 3) l
  (sliceChars l.input l.position l2.position, l2)

/-- `lexer.newToken` (lexer.go:152-154). -/
def newToken (t : TokenType) (c : Char) : Token :=
  { type := t, literal := [ c ] }

/-- The switch of `lexer.NextToken` (lexer.go:48-110), applied after the
whitespace skip: the switch on `l.ch`.  `none` is the Go panic that
`peakChar` can raise.  Every branch of the switch except the
identifier/number early returns falls through to the final `readChar`. -/
def nextTokenCore (l : Lexer) : Option (Token × Lexer) :=
  if l.ch = '=' then
    match peakChar l with
    | none => none
    | some pc =>
      if pc = '=' then
        let c := l.ch
        let l2 := readChar l
        some ({ type := .EQ, literal := [ c, l2.ch ] }, readChar l2)
      else
        some (newToken .ASSIGN l.ch, readChar l)
  else if l.ch = '+' then some (newToken .PLUS l.ch, readChar l)
  else if l.ch = '-' then some (newToken .MINUS l.ch, readChar l)
  else if l.ch = '!' then
    match peakChar l with
    | none => none
    | some pc =>
      if pc = '=' then
        let c := l.ch
        let l2 := readChar l
        some ({ type := .NOT_EQ, literal := [ c, l2.ch ] }, readChar l2)
      else
        some (newToken .BANG l.ch, readChar l)
  else if l.ch = '/' then some (newToken .SLASH l.ch, readChar l)
  else if l.ch = '*' then some (newToken .ASTERISK l.ch, readChar l)
  else if l.ch = '<' then some (newToken .LT l.ch, readChar l)
  else if l.ch = '>' then some (newToken .GT l.ch, readChar l)
  else if l.ch = ';' then some (newToken .SEMICOLON l.ch, readChar l)
  else if l.ch = '(' then some (newToken .LPAREN l.ch, readChar l)
  else if l.ch = ')' then some (newToken .RPAREN l.ch, readChar l)
  else if l.ch = ',' then some (newToken .COMMA l.ch, readChar l)
  else if l.ch = '{' then some (newToken .LBRACE l.ch, readChar l)
  else if l.ch = '}' then some (newToken .RBRACE l.ch, readChar l)
  else if l.ch = nul then some ({ type := .EOF, literal := [] }, readChar l)
  else if isLetter l.ch then
    let r := readIdentifier l
    some ({ type := LookupIdent r.1, literal := r.1 }, r.2)
  else if isDigit l.ch then
    let r := readNumber l
    some ({ type := .INT, literal := r.1 }, r.2)
  else
    some (newToken .ILLEGAL l.ch, readChar l)

/-- `lexer.NextToken` (lexer.go:43-111): skip whitespace first, then run the
switch on the current character. -/
def NextToken (l : Lexer) : Option (Token × Lexer) :=
  nextTokenCore (skipWhitespace l)

/-- Modelled from the spec: the missing `ast` package's Expression variant
(Identifier, IntegerLiteral, PrefixExpression, InfixExpression).  A Go nil
interface value in a child slot is `Option.none`. -/
inductive Expression where
  | Identifier (token : Token) (value : List Char)
  | IntegerLiteral (token : Token) (value : Int)
  | PrefixExpression (token : Token) (operator : List Char) (right : Option Expression)
  | InfixExpression (token : Token) (operator : List Char)
      (left : Option Expression) (right : Option Expression)
deriving Repr

/-- Modelled from the spec: the missing `ast` package's Statement variant.
`LetStatement` carries its bound name (an `ast.Identifier`: token plus value
string); its value expression region and the one of `ReturnStatement` are
skipped by the present parser, so no child slot for them is ever filled and we
omit those always-nil slots. -/
inductive Statement where
  | LetStatement (token : Token) (nameTok : Token) (nameVal : List Char)
  | ReturnStatement (token : Token)
  | ExpressionStatement (token : Token) (expression : Option Expression)
deriving Repr

/-- Modelled from the spec: `ast.Program`, the ordered statement sequence. -/
structure Program where
  Statements : List Statement
deriving Repr

/-- A Go runtime fault while parsing: either our explicit fuel ran out (the
Go loop is still running), or the lexer hit its out-of-range panic. -/
inductive Fault where
  | outOfFuel
  | panicked
deriving DecidableEq, Repr

/-- `parser.Parser` (parser.go:127-137): the wrapped lexer, the two-token
window and the diagnostics list.  The handler registries are closed and are
modelled as the fixed dispatch in `parseExpression` below. -/
structure Parser where
  l : Lexer
  curToken : Token
  peekToken : Token
  errors : List (List Char)
deriving Repr

/-- Precedence constants (parser.go:105-114), `iota` values 1..7. -/
def LOWEST : Nat := 1

/-- Precedence of `==` and `!=`. -/
def EQUALS : Nat := 2

/-- Precedence of `<` and `>`. -/
def LESSGREATER : Nat := 3

/-- Precedence of `+` and binary `-`. -/
def SUM : Nat := 4

/-- Precedence of `*` and `/`. -/
def PRODUCT : Nat := 5

/-- Precedence of prefix `-X` and `!X`. -/
def PREFIX : Nat := 6

/-- Precedence reserved for call expressions (unused). -/
def CALL : Nat := 7

/-- The `precedences` map (parser.go:116-125); `none` for kinds absent from
the map. -/
def precedences : TokenType → Option Nat
  | .EQ => some EQUALS
  | .NOT_EQ => some EQUALS
  | .LT => some LESSGREATER
  | .GT => some LESSGREATER
  | .PLUS => some SUM
  | .MINUS => some SUM
  | .SLASH => some PRODUCT
  | .ASTERISK => some PRODUCT
  | _ => none

/-- `parser.nextToken` (parser.go:172-175): slide the window, pull one token
from the lexer; a lexer panic aborts the whole parse. -/
def parserNextToken (p : Parser) : Except Fault Parser :=
  match NextToken p.l with
  | none => .error .panicked
  | some (t, l2) => .ok { p with l := l2, curToken := p.peekToken, peekToken := t }

/-- `parser.New` (parser.go:139-166): zero-value token window (immediately
overwritten), empty error list, then two `nextToken` calls. -/
def parserNew (l : Lexer) : Except Fault Parser :=
  let p0 : Parser :=
    { l := l, curToken := { type := .ILLEGAL, literal := [] },
      peekToken := { type := .ILLEGAL, literal := [] }, errors := [] }
  match parserNextToken p0 with
  | .error e => .error e
  | .ok p1 => parserNextToken p1

/-- `parser.curTokenIs` (parser.go:286-288). -/
def curTokenIs (p : Parser) (t : TokenType) : Bool :=
  p.curToken.type == t

/-- `parser.peekTokenIs` (parser.go:290-292). -/
def peekTokenIs (p : Parser) (t : TokenType) : Bool :=
  p.peekToken.type == t

/-- The diagnostic text of `parser.peekError` (parser.go:309-313). -/
def expectedMsg (t found : TokenType) : List Char :=
  strChars "expected next token to be " ++ ttString t ++ strChars ", got "
    ++ ttString found ++ strChars " instead"

/-- `parser.peekError` (parser.go:309-313): append one structural diagnostic
naming the expected kind and the kind actually in `peekToken`. -/
def peekError (p : Parser) (t : TokenType) : Parser :=
  { p with errors := p.errors ++ [ expectedMsg t p.peekToken.type ] }

/-- `parser.expectPeek` (parser.go:295-303): advance on a match, otherwise
record the diagnostic and report failure without advancing. -/
def expectPeek (p : Parser) (t : TokenType) : Except Fault (Bool × Parser) :=
  if peekTokenIs p t then
    match parserNextToken p with
    | .error e => .error e
    | .ok p2 => .ok (true, p2)
  else
    .ok (false, peekError p t)

/-- `parser.peekPrecedence` (parser.go:315-321). -/
def peekPrecedence (p : Parser) : Nat :=
  (precedences p.peekToken.type).getD LOWEST

/-- `parser.curPrecedence` (parser.go:323-329). -/
def curPrecedence (p : Parser) : Nat :=
  (precedences p.curToken.type).getD LOWEST

/-- The per-digit step of Go `strconv.ParseInt`: value of one digit
character, or `none`. -/
def digitVal (c : Char) : Option Nat :=
  if '0' ≤ c ∧ c ≤ '9' then some (c.toNat - '0'.toNat)
  else if 'a' ≤ c ∧ c ≤ 'z' then some (c.toNat - 'a'.toNat + 10)
  else if 'A' ≤ c ∧ c ≤ 'Z' then some (c.toNat - 'A'.toNat + 10)
  else none

/-- Accumulate digits in the given base; `none` on an empty digit list or an
out-of-base digit, as in Go `strconv.ParseUint`. -/
def digitsVal (base : Nat) : List Char → Option Nat
  | [] => none
  | ds => go ds 0
where
  go : List Char → Nat → Option Nat
    | [], acc => some acc
    | c :: rest, acc =>
      match digitVal c with
      | none => none
      | some v => if v < base then go rest (acc * base + v) else none

/-- Go `strconv.ParseInt(s, 0, 64)` as called by `parseIntegerLiteral`
(parser.go:347): base 0 means a leading sign, then `0x`/`0b`/`0o` prefixes or
the legacy leading-`0` octal form, then digits, with a signed-64-bit range
check; any failure (including out-of-range) makes the Go call return a
non-nil error, here `none`.  (Go also accepts `_` separators in base-0 mode;
the lexer's `readNumber` only ever produces bare decimal-digit runs, on which
this model agrees with Go.) -/
def ParseInt64 (s : List Char) : Option Int :=
  match s with
  | [] => none
  | c :: rest =>
    let signBody : Bool × List Char :=
      if c = '-' then (true, rest)
      else if c = '+' then (false, rest) else (false, c :: rest)
    let baseDigits : Nat × List Char :=
      match signBody.2 with
      | '0' :: x :: more =>
        if x = 'x' ∨ x = 'X' then (16, more)
        else if x = 'b' ∨ x = 'B' then (2, more)
        else if x = 'o' ∨ x = 'O' then (8, more)
        else (8, x :: more)
      | other => (10, other)
    match digitsVal baseDigits.1 baseDigits.2 with
    | none => none
    | some n =>
      let v : Int := if signBody.1 then -(n : Int) else (n : Int)
      if -(2 ^ 63) ≤ v ∧ v ≤ 2 ^ 63 - 1 then some v else none

/-- `parser.parseIdentifier` (parser.go:168-170). -/
def parseIdentifier (p : Parser) : Expression :=
  .Identifier p.curToken p.curToken.literal

/-- The diagnostic text of `parseIntegerLiteral`'s failure path
(parser.go:349): `could not parse %q as integer`, `%q` quoting the literal. -/
def couldNotParseMsg (lit : List Char) : List Char :=
  strChars "could not parse \"" ++ lit ++ strChars "\" as integer"

/-- `parser.parseIntegerLiteral` (parser.go:344-355): convert the current
literal with `strconv.ParseInt(_, 0, 64)`; on failure append one diagnostic
and return no node. -/
def parseIntegerLiteral (p : Parser) : Option Expression × Parser :=
  match ParseInt64 p.curToken.literal with
  | none => (none, { p with errors := p.errors ++ [ couldNotParseMsg p.curToken.literal ] })
  | some v => (some (.IntegerLiteral p.curToken v), p)

/-- `parser.noPrefixParseFnError` (parser.go:357-360). -/
def noPrefixMsg (t : TokenType) : List Char :=
  strChars "no prefix parse function for " ++ ttString t ++ strChars " found"

/-- Appending `noPrefixMsg` to the diagnostics (parser.go:357-360). -/
def noPrefixParseFnError (p : Parser) (t : TokenType) : Parser :=
  { p with errors := p.errors ++ [ noPrefixMsg t ] }

/-- The closed prefix-handler registry (parser.go:149-153): the kinds for
which `prefixParseFns` is populated. -/
def hasPrefixFn : TokenType → Bool
  | .IDENT | .INT | .BANG | .MINUS => true
  | _ => false

/-- The closed infix-handler registry (parser.go:155-163): the kinds for
which `infixParseFns` is populated. -/
def hasInfixFn : TokenType → Bool
  | .PLUS | .MINUS | .SLASH | .ASTERISK | .NOT_EQ | .EQ | .LT | .GT => true
  | _ => false

/-- The call types of the expression-parsing recursion: the body of
`parseExpression` (prefix dispatch), its precedence-climbing loop, and the
two handlers that re-enter `parseExpression` (`parsePrefixExpression`,
`parseInfixExpression`).  One inductive lets the whole mutual recursion of
parser.go:251-284/362-384 run on a single fuel counter. -/
inductive ExprCall where
  | expr (precedence : Nat)
  | loop (precedence : Nat) (leftExp : Option Expression)
  | prefixE
  | infixE (left : Option Expression)

/-- One step of the expression parser; `recur` is the recursive entry paid
for with one unit of fuel.
`.expr` is `parser.parseExpression` (parser.go:251-284): prefix dispatch by
the current token kind (recording a diagnostic and yielding no node when no
prefix rule is registered), then the precedence-climbing loop.
`.loop` is that loop (parser.go:273-282): while the upcoming token is no
semicolon and binds stronger than `precedence`, and an infix rule exists for
it, step onto it and fold it into `leftExp`.
`.prefixE` is `parser.parsePrefixExpression` (parser.go:362-370): note that
the node is returned even when the recursive parse of the right-hand side
yields no node.
`.infixE` is `parser.parseInfixExpression` (parser.go:372-384): capture the
supplied left side and parse the right side at this operator's own
precedence. -/
def exprStep (recur : ExprCall → Parser → Except Fault (Option Expression × Parser)) :
    ExprCall → Parser → Except Fault (Option Expression × Parser)
  | .expr precedence, p =>
    match p.curToken.type with
    | .IDENT => recur (.loop precedence (some (parseIdentifier p))) p
    | .INT =>
      match parseIntegerLiteral p with
      | (leftExp, p2) => recur (.loop precedence leftExp) p2
    | .BANG =>
      match recur .prefixE p with
      | .error e => .error e
      | .ok (leftExp, p2) => recur (.loop precedence leftExp) p2
    | .MINUS =>
      match recur .prefixE p with
      | .error e => .error e
      | .ok (leftExp, p2) => recur (.loop precedence leftExp) p2
    | t => .ok (none, noPrefixParseFnError p t)
  | .loop precedence leftExp, p =>
    if peekTokenIs p .SEMICOLON = false ∧ precedence < peekPrecedence p then
      if hasInfixFn p.peekToken.type then
        match parserNextToken p with
        | .error e => .error e
        | .ok p2 =>
          match recur (.infixE leftExp) p2 with
          | .error e => .error e
          | .ok (leftExp2, p3) => recur (.loop precedence leftExp2) p3
      else .ok (leftExp, p)
    else .ok (leftExp, p)
  | .prefixE, p =>
    match parserNextToken p with
    | .error e => .error e
    | .ok p2 =>
      match recur (.expr PREFIX) p2 with
      | .error e => .error e
      | .ok (right, p3) =>
        .ok (some (.PrefixExpression p.curToken p.curToken.literal right), p3)
  | .infixE left, p =>
    match parserNextToken p with
    | .error e => .error e
    | .ok p2 =>
      match recur (.expr (curPrecedence p)) p2 with
      | .error e => .error e
      | .ok (right, p3) =>
        .ok (some (.InfixExpression p.curToken p.curToken.literal left right), p3)

/-- The fuelled expression-parsing recursion, written with a bare `Nat.rec`
so that unfolding one unit of fuel is a single iota step. -/
def exprRun (f : Nat) : ExprCall → Parser → Except Fault (Option Expression × Parser) :=
  Nat.rec (fun _ _ => .error .outOfFuel) (fun _ ih => exprStep ih) f

/-- `parser.parseExpression` (parser.go:251-284), see `exprStep`. -/
def parseExpression (f : Nat) (precedence : Nat) (p : Parser) :
    Except Fault (Option Expression × Parser) :=
  exprRun f (.expr precedence) p

/-- The precedence-climbing loop of `parseExpression` (parser.go:273-282),
see `exprStep`. -/
def infixLoopGo (f : Nat) (precedence : Nat) (leftExp : Option Expression) (p : Parser) :
    Except Fault (Option Expression × Parser) :=
  exprRun f (.loop precedence leftExp) p

/-- `parser.parsePrefixExpression` (parser.go:362-370), see `exprStep`. -/
def parsePrefixExpression (f : Nat) (p : Parser) :
    Except Fault (Option Expression × Parser) :=
  exprRun f .prefixE p

/-- `parser.parseInfixExpression` (parser.go:372-384), see `exprStep`. -/
def parseInfixExpression (f : Nat) (left : Option Expression) (p : Parser) :
    Except Fault (Option Expression × Parser) :=
  exprRun f (.infixE left) p

/-- `parser.parseExpressionStatement` (parser.go:238-249): always yields a
statement node; the trailing semicolon is optional. -/
def parseExpressionStatement (f : Nat) (p : Parser) : Except Fault (Option Statement × Parser) :=
  match parseExpression f LOWEST p with
  | .error e => .error e
  | .ok (expr, p2) =>
    if peekTokenIs p2 .SEMICOLON then
      match parserNextToken p2 with
      | .error e => .error e
      | .ok p3 => .ok (some (.ExpressionStatement p.curToken expr), p3)
    else
      .ok (some (.ExpressionStatement p.curToken expr), p2)

/-- The value-skipping loop shared by `parseLetStatement` (parser.go:220-222)
and `parseReturnStatement` (parser.go:232-234): advance until the current
token is a semicolon.  The Go loop has no end-of-input check, so past the end
of the input it never stops; the fuel makes that observable as
`Fault.outOfFuel` for every fuel value. -/
def skipToSemicolon : Nat → Parser → Except Fault Parser
  | f, p =>
    if curTokenIs p .SEMICOLON then .ok p
    else
      match f with
      | 0 => .error .outOfFuel
      | f + 1 =>
        match parserNextToken p with
        | .error e => .error e
        | .ok p2 => skipToSemicolon f p2

/-- `parser.parseLetStatement` (parser.go:203-224): require IDENT then
ASSIGN (each failure records a diagnostic and yields no node), then skip to
the semicolon. -/
def parseLetStatement (f : Nat) (p : Parser) : Except Fault (Option Statement × Parser) :=
  match expectPeek p .IDENT with
  | .error e => .error e
  | .ok (false, p1) => .ok (none, p1)
  | .ok (true, p1) =>
    match expectPeek p1 .ASSIGN with
    | .error e => .error e
    | .ok (false, p2) => .ok (none, p2)
    | .ok (true, p2) =>
      match skipToSemicolon f p2 with
      | .error e => .error e
      | .ok p3 => .ok (some (.LetStatement p.curToken p1.curToken p1.curToken.literal), p3)

/-- `parser.parseReturnStatement` (parser.go:226-236). -/
def parseReturnStatement (f : Nat) (p : Parser) : Except Fault (Option Statement × Parser) :=
  match parserNextToken p with
  | .error e => .error e
  | .ok p1 =>
    match skipToSemicolon f p1 with
    | .error e => .error e
    | .ok p2 => .ok (some (.ReturnStatement p.curToken), p2)

/-- `parser.parseStatement` (parser.go:191-200): dispatch on the current
kind; every kind has a rule (the default is the expression statement). -/
def parseStatement (f : Nat) (p : Parser) : Except Fault (Option Statement × Parser) :=
  match p.curToken.type with
  | .LET => parseLetStatement f p
  | .RETURN => parseReturnStatement f p
  | _ => parseExpressionStatement f p

/-- The loop of `parser.ParseProgram` (parser.go:181-187): one statement per
iteration until the current token is end-of-input; a `nil` statement is
skipped, a produced one is appended in order. -/
def parseProgramLoop : Nat → Parser → Except Fault (List Statement × Parser)
  | f, p =>
    if curTokenIs p .EOF then .ok ([], p)
    else
      match f with
      | 0 => .error .outOfFuel
      | f + 1 =>
        match parseStatement f p with
        | .error e => .error e
        | .ok (stmtOpt, p1) =>
          match parserNextToken p1 with
          | .error e => .error e
          | .ok p2 =>
            match parseProgramLoop f p2 with
            | .error e => .error e
            | .ok (rest, p3) =>
              match stmtOpt with
              | some s => .ok (s :: rest, p3)
              | none => .ok (rest, p3)

/-- `parser.ParseProgram` (parser.go:177-189). -/
def ParseProgram (f : Nat) (p : Parser) : Except Fault (Program × Parser) :=
  match parseProgramLoop f p with
  | .error e => .error e
  | .ok (stmts, p2) => .ok ({ Statements := stmts }, p2)

/-- The whole pipeline on a source string: `parser.New(lexer.New(input))`
followed by `ParseProgram`. -/
def parseInput (f : Nat) (input : List Char) : Except Fault (Program × Parser) :=
  match parserNew (lexerNew input) with
  | .error e => .error e
  | .ok p => ParseProgram f p

/-- Projection used by the concrete theorems: the parsed statement list and
the accumulated diagnostics, `none` on a fault. -/
def parseResult (f : Nat) (input : List Char) : Option (List Statement × List (List Char)) :=
  match parseInput f input with
  | .error _ => none
  | .ok (prog, p) => some (prog.Statements, p.errors)

/-- Modelled from the spec: the fully parenthesized reconstruction of an
expression (the `String()` methods of the missing `ast` package): an absent
node prints as nothing, prefix as `(<op><right>)`, infix as
`(<left> <op> <right>)`.  The extra `Nat` is recursion fuel over the nesting
depth (an artifact of the nested `Option`; callers pass a bound that
dominates the depth, so the rendering is total on their trees). -/
def exprToStringGo : Nat → Option Expression → List Char
  | 0, _ => []
  | _ + 1, none => []
  | _ + 1, some (.Identifier _ v) => v
  | _ + 1, some (.IntegerLiteral tok _) => tok.literal
  | f + 1, some (.PrefixExpression _ op r) => '(' :: (op ++ exprToStringGo f r) ++ [ ')' ]
  | f + 1, some (.InfixExpression _ op lhs rhs) =>
      '(' :: (exprToStringGo f lhs ++ [ ' ' ] ++ op ++ [ ' ' ] ++ exprToStringGo f rhs) ++ [ ')' ]

/-- The parenthesized reconstructions of a parse's expression statements
(non-expression statements print as nothing here), `none` on a fault.  A
parse with fuel `f` builds trees of depth below `f` (every node costs at
least one fuel), so `f` is also a sufficient rendering bound. -/
def parsedExprStrings (f : Nat) (input : List Char) : Option (List (List Char)) :=
  match parseInput f input with
  | .error _ => none
  | .ok (prog, _) =>
    some (prog.Statements.map fun st =>
      match st with
      | .ExpressionStatement _ e => exprToStringGo f e
      | _ => [])

/-! Helper definitions and lemmas shared by the theorems below. -/

/-- The scanner cursor invariant of the spec: `readPosition = position + 1`,
and `ch` reflects `input[position]` (or the NUL sentinel past the end). -/
def lexInv (l : Lexer) : Prop :=
  l.readPosition = l.position + 1 ∧
  l.ch = if l.position < l.input.length then l.input.getD l.position nul else nul

/-- A scanner that has run off the end of its input: both cursors past the
end and the NUL sentinel loaded. -/
def lexAtEnd (l : Lexer) : Prop :=
  l.input.length ≤ l.position ∧ l.input.length ≤ l.readPosition ∧ l.ch = nul

/-- The n-th token (0-indexed) the scanner yields from state `l` by repeated
`NextToken` calls; `none` if a call panics along the way. -/
def nthTokenFrom (l : Lexer) : Nat → Option Token
  | 0 => (NextToken l).map Prod.fst
  | n + 1 =>
    match NextToken l with
    | none => none
    | some r => nthTokenFrom r.2 n

/-- A parser state with a chosen token window over an exhausted scanner,
used to instantiate the general parser theorems at concrete inputs. -/
def mkParser (cur peek : Token) : Parser :=
  { l := lexerNew [], curToken := cur, peekToken := peek, errors := [] }

/-- Whether a statement is a `LetStatement`. -/
def isLetStmt : Statement → Bool
  | .LetStatement .. => true
  | _ => false

/-- The end-of-input token (kind `EOF`, empty literal). -/
def eofTok : Token :=
  { type := .EOF, literal := [] }

/-- The state `parser.New` reaches on the input `let x = 5` (no trailing
semicolon): current token `let`, peek token `x`. -/
def pLet0 : Parser :=
  { l := { input := strChars "let x = 5", position := 5, readPosition := 6, ch := ' ' },
    curToken := { type := .LET, literal := strChars "let" },
    peekToken := { type := .IDENT, literal := [ 'x' ] }, errors := [] }

/-- The state at entry of the let-statement value-skipping loop on
`let x = 5`: current token `=`, peek token `5`, scanner exhausted. -/
def pLetSkipEntry : Parser :=
  { l := { input := strChars "let x = 5", position := 9, readPosition := 10, ch := nul },
    curToken := { type := .ASSIGN, literal := [ '=' ] },
    peekToken := { type := .INT, literal := [ '5' ] }, errors := [] }

/-- The state the value-skipping loop keeps stepping through once the input
is exhausted: both window tokens are end-of-input and never a semicolon. -/
def pLetSkipStuck : Parser :=
  { l := { input := strChars "let x = 5", position := 11, readPosition := 12, ch := nul },
    curToken := { type := .EOF, literal := [] },
    peekToken := { type := .EOF, literal := [] }, errors := [] }

/-- Parser state after the failed `expectPeek` of `parseLetStatement` on the
window (`let`, `5`): unchanged but for the recorded diagnostic. -/
def wLetFail1 : Parser :=
  { l := { input := [], position := 0, readPosition := 1, ch := nul },
    curToken := { type := .LET, literal := strChars "let" },
    peekToken := { type := .INT, literal := [ '5' ] },
    errors := [ expectedMsg .IDENT .INT ] }

/-- `wLetFail1` advanced one token. -/
def wLetFail2 : Parser :=
  { l := { input := [], position := 1, readPosition := 2, ch := nul },
    curToken := { type := .INT, literal := [ '5' ] },
    peekToken := { type := .EOF, literal := [] },
    errors := [ expectedMsg .IDENT .INT ] }

/-- Parser state after `parseReturnStatement` on the window (`return`, `;`). -/
def wRet1 : Parser :=
  { l := { input := [], position := 1, readPosition := 2, ch := nul },
    curToken := { type := .SEMICOLON, literal := [ ';' ] },
    peekToken := { type := .EOF, literal := [] }, errors := [] }

/-- `wRet1` advanced one token. -/
def wRet2 : Parser :=
  { l := { input := [], position := 2, readPosition := 3, ch := nul },
    curToken := { type := .EOF, literal := [] },
    peekToken := { type := .EOF, literal := [] }, errors := [] }

/-- Parser state after `parserNextToken` from `mkParser` (`-`, end-of-input):
used to witness the prefix-operand theorem. -/
def wMinus1 : Parser :=
  { l := { input := [], position := 1, readPosition := 2, ch := nul },
    curToken := { type := .EOF, literal := [] },
    peekToken := { type := .EOF, literal := [] }, errors := [] }

/-- The benchmark-input source of the spec's hardest precedence example. -/
def hardInput : List Char := strChars "a + b * c + d / e - f"

/-- The state `parser.New` reaches on `hardInput`. -/
def hardP0 : Parser := { l := { input := strChars "a + b * c + d / e - f", position := 3, readPosition := 4, ch := ' ' }, curToken := { type := .IDENT, literal := [ 'a' ] }, peekToken := { type := .PLUS, literal := [ '+' ] }, errors := [] }

/-- The expression tree the parser builds from `hardInput`. -/
def hardTree : Option Expression := some (Expression.InfixExpression { type := .MINUS, literal := [ '-' ] } [ '-' ] (some (Expression.InfixExpression { type := .PLUS, literal := [ '+' ] } [ '+' ] (some (Expression.InfixExpression { type := .PLUS, literal := [ '+' ] } [ '+' ] (some (Expression.Identifier { type := .IDENT, literal := [ 'a' ] } [ 'a' ])) (some (Expression.InfixExpression { type := .ASTERISK, literal := [ '*' ] } [ '*' ] (some (Expression.Identifier { type := .IDENT, literal := [ 'b' ] } [ 'b' ])) (some (Expression.Identifier { type := .IDENT, literal := [ 'c' ] } [ 'c' ])))))) (some (Expression.InfixExpression { type := .SLASH, literal := [ '/' ] } [ '/' ] (some (Expression.Identifier { type := .IDENT, literal := [ 'd' ] } [ 'd' ])) (some (Expression.Identifier { type := .IDENT, literal := [ 'e' ] } [ 'e' ])))))) (some (Expression.Identifier { type := .IDENT, literal := [ 'f' ] } [ 'f' ])))

/-- The parser state after the expression of `hardInput` is consumed. -/
def hardPend : Parser := { l := { input := strChars "a + b * c + d / e - f", position := 22, readPosition := 23, ch := nul }, curToken := { type := .IDENT, literal := [ 'f' ] }, peekToken := { type := .EOF, literal := [] }, errors := [] }

/-- `hardPend` advanced one token: the exhausted end state. -/
def hardP2 : Parser := { l := { input := strChars "a + b * c + d / e - f", position := 23, readPosition := 24, ch := nul }, curToken := { type := .EOF, literal := [] }, peekToken := { type := .EOF, literal := [] }, errors := [] }

/-- The single expression statement parsed from `hardInput`. -/
def hardStmt : Statement := .ExpressionStatement { type := .IDENT, literal := [ 'a' ] } hardTree

theorem readChar_inv (l : Lexer) : lexInv (readChar l) := by
  refine ⟨rfl, ?_⟩
  show (if l.readPosition ≥ l.input.length then nul else l.input.getD l.readPosition nul)
      = if l.readPosition < l.input.length then l.input.getD l.readPosition nul else nul
  by_cases h : l.readPosition < l.input.length
  · rw [if_neg (by omega), if_pos h]
  · rw [if_pos (by omega), if_neg h]

theorem readChar_input (l : Lexer) : (readChar l).input = l.input := rfl

theorem lexerNew_inv (input : List Char) : lexInv (lexerNew input) :=
  readChar_inv _

theorem skipWsGo_inv : ∀ f l, lexInv l → lexInv (skipWsGo f l)
  | 0, _, h => h
  | f + 1, l, h => by
    unfold skipWsGo
    split
    · exact skipWsGo_inv f (readChar l) (readChar_inv l)
    · exact h

theorem skipWsGo_input : ∀ f l, (skipWsGo f l).input = l.input
  | 0, _ => rfl
  | f + 1, l => by
    unfold skipWsGo
    split
    · exact (skipWsGo_input f (readChar l)).trans (readChar_input l)
    · rfl

theorem skipWhitespace_inv (l : Lexer) (h : lexInv l) : lexInv (skipWhitespace l) :=
  skipWsGo_inv _ l h

theorem skipWhitespace_input (l : Lexer) : (skipWhitespace l).input = l.input :=
  skipWsGo_input _ l

theorem readIdentGo_inv : ∀ f l, lexInv l → lexInv (readIdentGo f l)
  | 0, _, h => h
  | f + 1, l, h => by
    unfold readIdentGo
    split
    · exact readIdentGo_inv f (readChar l) (readChar_inv l)
    · exact h

theorem readNumberGo_inv : ∀ f l, lexInv l → lexInv (readNumberGo f l)
  | 0, _, h => h
  | f + 1, l, h => by
    unfold readNumberGo
    split
    · exact readNumberGo_inv f (readChar l) (readChar_inv l)
    · exact h

theorem readIdentifier_inv (l : Lexer) (h : lexInv l) : lexInv (readIdentifier l).2 :=
  readIdentGo_inv _ l h

theorem readNumber_inv (l : Lexer) (h : lexInv l) : lexInv (readNumber l).2 :=
  readNumberGo_inv _ l h

theorem skipWsGo_stop (f : Nat) (l : Lexer) (h : isWhitespaceCh l.ch = false) :
    skipWsGo f l = l := by
  cases f
  · rfl
  · unfold skipWsGo
    rw [h]
    rfl

theorem skipWhitespace_ch_nul (l : Lexer) (h : l.ch = nul) : skipWhitespace l = l :=
  skipWsGo_stop _ l (by rw [h]; decide)

theorem nextTokenCore_ch_nul (l : Lexer) (h : l.ch = nul) :
    nextTokenCore l = some ({ type := .EOF, literal := [] }, readChar l) := by
  simp only [nextTokenCore]
  rw [h]
  rw [if_neg (show ¬(nul = '=') by decide)]
  rw [if_neg (show ¬(nul = '+') by decide)]
  rw [if_neg (show ¬(nul = '-') by decide)]
  rw [if_neg (show ¬(nul = '!') by decide)]
  rw [if_neg (show ¬(nul = '/') by decide)]
  rw [if_neg (show ¬(nul = '*') by decide)]
  rw [if_neg (show ¬(nul = '<') by decide)]
  rw [if_neg (show ¬(nul = '>') by decide)]
  rw [if_neg (show ¬(nul = ';') by decide)]
  rw [if_neg (show ¬(nul = '(') by decide)]
  rw [if_neg (show ¬(nul = ')') by decide)]
  rw [if_neg (show ¬(nul = ',') by decide)]
  rw [if_neg (show ¬(nul = '{') by decide)]
  rw [if_neg (show ¬(nul = '}') by decide)]
  rw [if_pos rfl]

theorem NextToken_ch_nul (l : Lexer) (h : l.ch = nul) :
    NextToken l = some ({ type := .EOF, literal := [] }, readChar l) := by
  show nextTokenCore (skipWhitespace l) = _
  rw [skipWhitespace_ch_nul l h]
  exact nextTokenCore_ch_nul l h

theorem readChar_atEnd (l : Lexer) (h : lexAtEnd l) : lexAtEnd (readChar l) := by
  obtain ⟨h1, h2, _⟩ := h
  refine ⟨?_, ?_, ?_⟩
  · show l.input.length ≤ l.readPosition
    exact h2
  · show l.input.length ≤ l.readPosition + 1
    omega
  · show (if l.readPosition ≥ l.input.length then nul else _) = nul
    rw [if_pos (by omega)]

theorem NextToken_atEnd (l : Lexer) (h : lexAtEnd l) :
    NextToken l = some ({ type := .EOF, literal := [] }, readChar l) ∧ lexAtEnd (readChar l) :=
  ⟨NextToken_ch_nul l h.2.2, readChar_atEnd l h⟩

theorem LookupIdent_ne_EOF (lit : List Char) : LookupIdent lit ≠ .EOF := by
  unfold LookupIdent
  split_ifs <;> decide

/-- Case analysis of the switch `nextTokenCore`: every successful call
leaves the lexer at `readChar`, double `readChar`, or an identifier/number
scan of the pre-switch state, and the end-of-input token is produced exactly
from the NUL sentinel, with a single `readChar` past it. -/
theorem nextTokenCore_analysis (m : Lexer) (t : Token) (l2 : Lexer)
    (h : nextTokenCore m = some (t, l2)) :
    (l2 = readChar m ∨ l2 = readChar (readChar m)
      ∨ l2 = (readIdentifier m).2 ∨ l2 = (readNumber m).2)
    ∧ (t.type = .EOF → m.ch = nul ∧ l2 = readChar m) := by
  unfold nextTokenCore at h
  by_cases c1 : m.ch = '='
  · rw [if_pos c1] at h
    rcases hpk : peakChar m with _ | pc <;> rw [hpk] at h
    · exact Option.noConfusion h
    · replace h : (if pc = '=' then
            some ({ type := TokenType.EQ, literal := [ m.ch, (readChar m).ch ] },
              readChar (readChar m))
          else some (newToken .ASSIGN m.ch, readChar m)) = some (t, l2) := h
      by_cases d1 : pc = '='
      · rw [if_pos d1] at h
        injection h with hp
        injection hp with h1 h2
        subst h1; subst h2
        exact ⟨Or.inr (Or.inl rfl), fun he => TokenType.noConfusion he⟩
      · rw [if_neg d1] at h
        injection h with hp
        injection hp with h1 h2
        subst h1; subst h2
        exact ⟨Or.inl rfl, fun he => TokenType.noConfusion he⟩
  · rw [if_neg c1] at h
    by_cases c2 : m.ch = '+'
    · rw [if_pos c2] at h
      injection h with hp
      injection hp with h1 h2
      subst h1; subst h2
      exact ⟨Or.inl rfl, fun he => TokenType.noConfusion he⟩
    · rw [if_neg c2] at h
      by_cases c3 : m.ch = '-'
      · rw [if_pos c3] at h
        injection h with hp
        injection hp with h1 h2
        subst h1; subst h2
        exact ⟨Or.inl rfl, fun he => TokenType.noConfusion he⟩
      · rw [if_neg c3] at h
        by_cases c4 : m.ch = '!'
        · rw [if_pos c4] at h
          rcases hpk : peakChar m with _ | pc <;> rw [hpk] at h
          · exact Option.noConfusion h
          · replace h : (if pc = '=' then
                  some ({ type := TokenType.NOT_EQ, literal := [ m.ch, (readChar m).ch ] },
                    readChar (readChar m))
                else some (newToken .BANG m.ch, readChar m)) = some (t, l2) := h
            by_cases d2 : pc = '='
            · rw [if_pos d2] at h
              injection h with hp
              injection hp with h1 h2
              subst h1; subst h2
              exact ⟨Or.inr (Or.inl rfl), fun he => TokenType.noConfusion he⟩
            · rw [if_neg d2] at h
              injection h with hp
              injection hp with h1 h2
              subst h1; subst h2
              exact ⟨Or.inl rfl, fun he => TokenType.noConfusion he⟩
        · rw [if_neg c4] at h
          by_cases c5 : m.ch = '/'
          · rw [if_pos c5] at h
            injection h with hp
            injection hp with h1 h2
            subst h1; subst h2
            exact ⟨Or.inl rfl, fun he => TokenType.noConfusion he⟩
          · rw [if_neg c5] at h
            by_cases c6 : m.ch = '*'
            · rw [if_pos c6] at h
              injection h with hp
              injection hp with h1 h2
              subst h1; subst h2
              exact ⟨Or.inl rfl, fun he => TokenType.noConfusion he⟩
            · rw [if_neg c6] at h
              by_cases c7 : m.ch = '<'
              · rw [if_pos c7] at h
                injection h with hp
                injection hp with h1 h2
                subst h1; subst h2
                exact ⟨Or.inl rfl, fun he => TokenType.noConfusion he⟩
              · rw [if_neg c7] at h
                by_cases c8 : m.ch = '>'
                · rw [if_pos c8] at h
                  injection h with hp
                  injection hp with h1 h2
                  subst h1; subst h2
                  exact ⟨Or.inl rfl, fun he => TokenType.noConfusion he⟩
                · rw [if_neg c8] at h
                  by_cases c9 : m.ch = ';'
                  · rw [if_pos c9] at h
                    injection h with hp
                    injection hp with h1 h2
                    subst h1; subst h2
                    exact ⟨Or.inl rfl, fun he => TokenType.noConfusion he⟩
                  · rw [if_neg c9] at h
                    by_cases c10 : m.ch = '('
                    · rw [if_pos c10] at h
                      injection h with hp
                      injection hp with h1 h2
                      subst h1; subst h2
                      exact ⟨Or.inl rfl, fun he => TokenType.noConfusion he⟩
                    · rw [if_neg c10] at h
                      by_cases c11 : m.ch = ')'
                      · rw [if_pos c11] at h
                        injection h with hp
                        injection hp with h1 h2
                        subst h1; subst h2
                        exact ⟨Or.inl rfl, fun he => TokenType.noConfusion he⟩
                      · rw [if_neg c11] at h
                        by_cases c12 : m.ch = ','
                        · rw [if_pos c12] at h
                          injection h with hp
                          injection hp with h1 h2
                          subst h1; subst h2
                          exact ⟨Or.inl rfl, fun he => TokenType.noConfusion he⟩
                        · rw [if_neg c12] at h
                          by_cases c13 : m.ch = '{'
                          · rw [if_pos c13] at h
                            injection h with hp
                            injection hp with h1 h2
                            subst h1; subst h2
                            exact ⟨Or.inl rfl, fun he => TokenType.noConfusion he⟩
                          · rw [if_neg c13] at h
                            by_cases c14 : m.ch = '}'
                            · rw [if_pos c14] at h
                              injection h with hp
                              injection hp with h1 h2
                              subst h1; subst h2
                              exact ⟨Or.inl rfl, fun he => TokenType.noConfusion he⟩
                            · rw [if_neg c14] at h
                              by_cases cN : m.ch = nul
                              · rw [if_pos cN] at h
                                injection h with hp
                                injection hp with h1 h2
                                subst h1; subst h2
                                exact ⟨Or.inl rfl, fun _ => ⟨cN, rfl⟩⟩
                              · rw [if_neg cN] at h
                                by_cases cL : isLetter m.ch = true
                                · rw [if_pos cL] at h
                                  injection h with hp
                                  injection hp with h1 h2
                                  subst h1; subst h2
                                  exact ⟨Or.inr (Or.inr (Or.inl rfl)), fun he => absurd he (LookupIdent_ne_EOF _)⟩
                                · rw [if_neg cL] at h
                                  by_cases cD : isDigit m.ch = true
                                  · rw [if_pos cD] at h
                                    injection h with hp
                                    injection hp with h1 h2
                                    subst h1; subst h2
                                    exact ⟨Or.inr (Or.inr (Or.inr rfl)), fun he => TokenType.noConfusion he⟩
                                  · rw [if_neg cD] at h
                                    injection h with hp
                                    injection hp with h1 h2
                                    subst h1; subst h2
                                    exact ⟨Or.inl rfl, fun he => TokenType.noConfusion he⟩

theorem nextTokenCore_inv (m : Lexer) (t : Token) (l2 : Lexer)
    (hm : lexInv m) (h : nextTokenCore m = some (t, l2)) : lexInv l2 := by
  rcases (nextTokenCore_analysis m t l2 h).1 with h2 | h2 | h2 | h2 <;> subst h2
  · exact readChar_inv _
  · exact readChar_inv _
  · exact readIdentifier_inv _ hm
  · exact readNumber_inv _ hm

theorem NextToken_inv (l : Lexer) (t : Token) (l2 : Lexer)
    (hInv : lexInv l) (h : NextToken l = some (t, l2)) : lexInv l2 :=
  nextTokenCore_inv (skipWhitespace l) t l2 (skipWhitespace_inv l hInv) h

theorem NextToken_eof_cases (l : Lexer) (t : Token) (l2 : Lexer)
    (h : NextToken l = some (t, l2)) (ht : t.type = .EOF) :
    (skipWhitespace l).ch = nul ∧ l2 = readChar (skipWhitespace l) :=
  (nextTokenCore_analysis (skipWhitespace l) t l2 h).2 ht

theorem parserNextToken_atEnd (p : Parser) (h : lexAtEnd p.l) :
    parserNextToken p
      = .ok { l := readChar p.l, curToken := p.peekToken, peekToken := eofTok, errors := p.errors } := by
  unfold parserNextToken
  rw [(NextToken_atEnd p.l h).1]
  rfl

/-- Once both window tokens are end-of-input over an exhausted scanner, the
value-skipping loop of let/return statements never sees a semicolon again:
it runs out of any amount of fuel (the Go loop never exits). -/
theorem skipSemi_diverges : ∀ (f : Nat) (p : Parser), p.curToken.type = .EOF →
    p.peekToken.type = .EOF → lexAtEnd p.l → skipToSemicolon f p = .error .outOfFuel
  | 0, p, hc, _, _ => by
    unfold skipToSemicolon curTokenIs
    rw [hc]
    rfl
  | g + 1, p, hc, hp, hl => by
    unfold skipToSemicolon curTokenIs
    rw [hc]
    rw [if_neg (show ¬((TokenType.EOF == TokenType.SEMICOLON) = true) by decide)]
    show (match parserNextToken p with
      | .error e => (.error e : Except Fault Parser)
      | .ok p2 => skipToSemicolon g p2) = .error .outOfFuel
    rw [parserNextToken_atEnd p hl]
    exact skipSemi_diverges g _ hp rfl (readChar_atEnd p.l hl)

theorem letSkip_diverges : ∀ g : Nat, skipToSemicolon g pLetSkipEntry = .error .outOfFuel
  | 0 => rfl
  | 1 => rfl
  | g + 2 => by
    show skipToSemicolon g pLetSkipStuck = .error .outOfFuel
    exact skipSemi_diverges g pLetSkipStuck rfl rfl ⟨by decide, by decide, rfl⟩

/-- C2: refuted by the code — the claim asserts `ParseProgram` terminates on
every finite input, including a `let` (or `return`) statement not followed by
a semicolon; but on the input `let x = 5` the value-skipping loop of
`parseLetStatement` never finds a semicolon (the current token stays
end-of-input forever), so the parse consumes any amount of fuel without
completing: the Go program loops forever. -/
theorem c2_unterminated_let_never_completes :
    ∀ f : Nat, parseInput f (strChars "let x = 5") = .error .outOfFuel := by
  intro f
  rcases f with _ | g
  · rfl
  · show ParseProgram (Nat.succ g) pLet0 = .error .outOfFuel
    have e2 : parseLetStatement g pLet0 = .error .outOfFuel := by
      show (match skipToSemicolon g pLetSkipEntry with
        | .error e => (.error e : Except Fault (Option Statement × Parser))
        | .ok p3 => .ok (some (Statement.LetStatement { type := .LET, literal := strChars "let" }
            { type := .IDENT, literal := [ 'x' ] } [ 'x' ]), p3)) = .error .outOfFuel
      rw [letSkip_diverges g]
    have e1 : parseProgramLoop (Nat.succ g) pLet0 = .error .outOfFuel := by
      show (match parseStatement g pLet0 with
        | .error e => (.error e : Except Fault (List Statement × Parser))
        | .ok (stmtOpt, p1) =>
          match parserNextToken p1 with
          | .error e => .error e
          | .ok p2 =>
            match parseProgramLoop g p2 with
            | .error e => .error e
            | .ok (rest, p3) =>
              match stmtOpt with
              | some s => .ok (s :: rest, p3)
              | none => .ok (rest, p3)) = .error .outOfFuel
      rw [show parseStatement g pLet0 = parseLetStatement g pLet0 from rfl, e2]
    show (match parseProgramLoop (Nat.succ g) pLet0 with
      | .error e => (.error e : Except Fault (Program × Parser))
      | .ok (stmts, p2) => .ok ({ Statements := stmts }, p2)) = .error .outOfFuel
    rw [e1]

/-- Step lemma: prefix dispatch of an identifier. -/
theorem exprStep_expr_ident (recur : ExprCall → Parser → Except Fault (Option Expression × Parser))
    (precedence : Nat) (p : Parser) (h : p.curToken.type = .IDENT) :
    exprStep recur (.expr precedence) p
      = recur (.loop precedence (some (Expression.Identifier p.curToken p.curToken.literal))) p := by
  show (match p.curToken.type with
    | .IDENT => recur (.loop precedence (some (parseIdentifier p))) p
    | .INT =>
      match parseIntegerLiteral p with
      | (leftExp, p2) => recur (.loop precedence leftExp) p2
    | .BANG =>
      match recur .prefixE p with
      | .error e => .error e
      | .ok (leftExp, p2) => recur (.loop precedence leftExp) p2
    | .MINUS =>
      match recur .prefixE p with
      | .error e => .error e
      | .ok (leftExp, p2) => recur (.loop precedence leftExp) p2
    | t => .ok (none, noPrefixParseFnError p t))
    = recur (.loop precedence (some (Expression.Identifier p.curToken p.curToken.literal))) p
  rw [h]
  rfl

/-- Step lemma: the precedence-climbing loop stops when the upcoming token is
a semicolon or binds no stronger than the current threshold. -/
theorem exprStep_loop_exit (recur : ExprCall → Parser → Except Fault (Option Expression × Parser))
    (precedence : Nat) (leftExp : Option Expression) (p : Parser)
    (hC : ¬(peekTokenIs p .SEMICOLON = false ∧ precedence < peekPrecedence p)) :
    exprStep recur (.loop precedence leftExp) p = .ok (leftExp, p) := by
  show ((if peekTokenIs p .SEMICOLON = false ∧ precedence < peekPrecedence p then
      if hasInfixFn p.peekToken.type then
        match parserNextToken p with
        | .error e => .error e
        | .ok p2 =>
          match recur (.infixE leftExp) p2 with
          | .error e => .error e
          | .ok (leftExp2, p3) => recur (.loop precedence leftExp2) p3
      else .ok (leftExp, p)
    else .ok (leftExp, p) : Except Fault (Option Expression × Parser)) = .ok (leftExp, p))
  rw [if_neg hC]

/-- Step lemma: one iteration of the precedence-climbing loop. -/
theorem exprStep_loop_iterate (recur : ExprCall → Parser → Except Fault (Option Expression × Parser))
    (precedence : Nat) (leftExp : Option Expression) (p p2 : Parser)
    (leftExp2 : Option Expression) (p3 : Parser)
    (hC : peekTokenIs p .SEMICOLON = false ∧ precedence < peekPrecedence p)
    (hI : hasInfixFn p.peekToken.type = true)
    (hN : parserNextToken p = .ok p2)
    (hR : recur (.infixE leftExp) p2 = .ok (leftExp2, p3)) :
    exprStep recur (.loop precedence leftExp) p = recur (.loop precedence leftExp2) p3 := by
  show ((if peekTokenIs p .SEMICOLON = false ∧ precedence < peekPrecedence p then
      if hasInfixFn p.peekToken.type then
        match parserNextToken p with
        | .error e => .error e
        | .ok p2 =>
          match recur (.infixE leftExp) p2 with
          | .error e => .error e
          | .ok (le2, p4) => recur (.loop precedence le2) p4
      else .ok (leftExp, p)
    else .ok (leftExp, p) : Except Fault (Option Expression × Parser)) = recur (.loop precedence leftExp2) p3)
  rw [if_pos hC, if_pos hI, hN]
  show (match recur (.infixE leftExp) p2 with
    | .error e => (.error e : Except Fault (Option Expression × Parser))
    | .ok (le2, p4) => recur (.loop precedence le2) p4)
    = recur (.loop precedence leftExp2) p3
  rw [hR]

/-- Step lemma: an infix handler call. -/
theorem exprStep_infixE (recur : ExprCall → Parser → Except Fault (Option Expression × Parser))
    (left : Option Expression) (p p2 : Parser) (right : Option Expression) (p3 : Parser)
    (hN : parserNextToken p = .ok p2)
    (hR : recur (.expr (curPrecedence p)) p2 = .ok (right, p3)) :
    exprStep recur (.infixE left) p
      = .ok (some (Expression.InfixExpression p.curToken p.curToken.literal left right), p3) := by
  show ((match parserNextToken p with
    | .error e => .error e
    | .ok p4 =>
      match recur (.expr (curPrecedence p)) p4 with
      | .error e => .error e
      | .ok (r, p5) =>
        .ok (some (Expression.InfixExpression p.curToken p.curToken.literal left r), p5) : Except Fault (Option Expression × Parser))
    = .ok (some (Expression.InfixExpression p.curToken p.curToken.literal left right), p3))
  rw [hN]
  show (match recur (.expr (curPrecedence p)) p2 with
    | .error e => (.error e : Except Fault (Option Expression × Parser))
    | .ok (r, p5) =>
      .ok (some (Expression.InfixExpression p.curToken p.curToken.literal left r), p5))
    = .ok (some (Expression.InfixExpression p.curToken p.curToken.literal left right), p3)
  rw [hR]

/-- Step lemma: the statement loop of `ParseProgram` stops at end-of-input. -/
theorem parseProgramLoop_eof (f : Nat) (p : Parser) (hE : curTokenIs p .EOF = true) :
    parseProgramLoop f p = .ok ([], p) := by
  unfold parseProgramLoop
  rw [if_pos hE]

/-- Step lemma: one iteration of the statement loop that produced a node. -/
theorem parseProgramLoop_step_some (f : Nat) (p : Parser) (s : Statement)
    (p1 p2 : Parser) (rest : List Statement) (p3 : Parser)
    (hE : ¬(curTokenIs p .EOF = true))
    (hS : parseStatement f p = .ok (some s, p1))
    (hN : parserNextToken p1 = .ok p2)
    (hL : parseProgramLoop f p2 = .ok (rest, p3)) :
    parseProgramLoop (f + 1) p = .ok (s :: rest, p3) := by
  unfold parseProgramLoop
  rw [if_neg hE]
  show ((match parseStatement f p with
    | .error e => .error e
    | .ok (stmtOpt, p1) =>
      match parserNextToken p1 with
      | .error e => .error e
      | .ok p2 =>
        match parseProgramLoop f p2 with
        | .error e => .error e
        | .ok (rest, p3) =>
          match stmtOpt with
          | some s => .ok (s :: rest, p3)
          | none => .ok (rest, p3) : Except Fault (List Statement × Parser))
    = .ok (s :: rest, p3))
  rw [hS]
  show ((match parserNextToken p1 with
    | .error e => .error e
    | .ok p2 =>
      match parseProgramLoop f p2 with
      | .error e => .error e
      | .ok (rest, p3) =>
        .ok (s :: rest, p3) : Except Fault (List Statement × Parser))
    = .ok (s :: rest, p3))
  rw [hN]
  show ((match parseProgramLoop f p2 with
    | .error e => .error e
    | .ok (rest, p3) =>
      .ok (s :: rest, p3) : Except Fault (List Statement × Parser))
    = .ok (s :: rest, p3))
  rw [hL]

/-- Step lemma: one iteration of the statement loop that produced no node
(the failed statement is skipped, nothing is appended). -/
theorem parseProgramLoop_step_none (f : Nat) (p : Parser)
    (p1 p2 : Parser) (rest : List Statement) (p3 : Parser)
    (hE : ¬(curTokenIs p .EOF = true))
    (hS : parseStatement f p = .ok (none, p1))
    (hN : parserNextToken p1 = .ok p2)
    (hL : parseProgramLoop f p2 = .ok (rest, p3)) :
    parseProgramLoop (f + 1) p = .ok (rest, p3) := by
  unfold parseProgramLoop
  rw [if_neg hE]
  show ((match parseStatement f p with
    | .error e => .error e
    | .ok (stmtOpt, p1) =>
      match parserNextToken p1 with
      | .error e => .error e
      | .ok p2 =>
        match parseProgramLoop f p2 with
        | .error e => .error e
        | .ok (rest, p3) =>
          match stmtOpt with
          | some s => .ok (s :: rest, p3)
          | none => .ok (rest, p3) : Except Fault (List Statement × Parser))
    = .ok (rest, p3))
  rw [hS]
  show ((match parserNextToken p1 with
    | .error e => .error e
    | .ok p2 =>
      match parseProgramLoop f p2 with
      | .error e => .error e
      | .ok (rest, p3) =>
        .ok (rest, p3) : Except Fault (List Statement × Parser))
    = .ok (rest, p3))
  rw [hN]
  show ((match parseProgramLoop f p2 with
    | .error e => .error e
    | .ok (rest, p3) =>
      .ok (rest, p3) : Except Fault (List Statement × Parser))
    = .ok (rest, p3))
  rw [hL]
set_option maxHeartbeats 400000 in
/-- Evaluation of the expression parser on `a + b * c + d / e - f`, carried
out step by step with literal intermediate parser states (the chained
states are too costly to force in a single definitional-reduction step). -/
theorem hardExprParse :
    exprRun 24 (.expr 1) { l := { input := strChars "a + b * c + d / e - f", position := 3, readPosition := 4, ch := ' ' }, curToken := { type := .IDENT, literal := [ 'a' ] }, peekToken := { type := .PLUS, literal := [ '+' ] }, errors := [] }
      = .ok (some (Expression.InfixExpression { type := .MINUS, literal := [ '-' ] } [ '-' ] (some (Expression.InfixExpression { type := .PLUS, literal := [ '+' ] } [ '+' ] (some (Expression.InfixExpression { type := .PLUS, literal := [ '+' ] } [ '+' ] (some (Expression.Identifier { type := .IDENT, literal := [ 'a' ] } [ 'a' ])) (some (Expression.InfixExpression { type := .ASTERISK, literal := [ '*' ] } [ '*' ] (some (Expression.Identifier { type := .IDENT, literal := [ 'b' ] } [ 'b' ])) (some (Expression.Identifier { type := .IDENT, literal := [ 'c' ] } [ 'c' ])))))) (some (Expression.InfixExpression { type := .SLASH, literal := [ '/' ] } [ '/' ] (some (Expression.Identifier { type := .IDENT, literal := [ 'd' ] } [ 'd' ])) (some (Expression.Identifier { type := .IDENT, literal := [ 'e' ] } [ 'e' ])))))) (some (Expression.Identifier { type := .IDENT, literal := [ 'f' ] } [ 'f' ]))), { l := { input := strChars "a + b * c + d / e - f", position := 22, readPosition := 23, ch := nul }, curToken := { type := .IDENT, literal := [ 'f' ] }, peekToken := { type := .EOF, literal := [] }, errors := [] }) := by
  have h1 : exprRun 17 (.loop 5 (some (Expression.Identifier { type := .IDENT, literal := [ 'c' ] } [ 'c' ]))) { l := { input := strChars "a + b * c + d / e - f", position := 11, readPosition := 12, ch := ' ' }, curToken := { type := .IDENT, literal := [ 'c' ] }, peekToken := { type := .PLUS, literal := [ '+' ] }, errors := [] } = .ok (some (Expression.Identifier { type := .IDENT, literal := [ 'c' ] } [ 'c' ]), { l := { input := strChars "a + b * c + d / e - f", position := 11, readPosition := 12, ch := ' ' }, curToken := { type := .IDENT, literal := [ 'c' ] }, peekToken := { type := .PLUS, literal := [ '+' ] }, errors := [] }) := by
    show exprStep (exprRun 16) (.loop 5 (some (Expression.Identifier { type := .IDENT, literal := [ 'c' ] } [ 'c' ]))) { l := { input := strChars "a + b * c + d / e - f", position := 11, readPosition := 12, ch := ' ' }, curToken := { type := .IDENT, literal := [ 'c' ] }, peekToken := { type := .PLUS, literal := [ '+' ] }, errors := [] } = .ok (some (Expression.Identifier { type := .IDENT, literal := [ 'c' ] } [ 'c' ]), { l := { input := strChars "a + b * c + d / e - f", position := 11, readPosition := 12, ch := ' ' }, curToken := { type := .IDENT, literal := [ 'c' ] }, peekToken := { type := .PLUS, literal := [ '+' ] }, errors := [] })
    exact exprStep_loop_exit (exprRun 16) 5 (some (Expression.Identifier { type := .IDENT, literal := [ 'c' ] } [ 'c' ])) { l := { input := strChars "a + b * c + d / e - f", position := 11, readPosition := 12, ch := ' ' }, curToken := { type := .IDENT, literal := [ 'c' ] }, peekToken := { type := .PLUS, literal := [ '+' ] }, errors := [] } (by decide)
  have h2 : exprRun 18 (.expr 5) { l := { input := strChars "a + b * c + d / e - f", position := 11, readPosition := 12, ch := ' ' }, curToken := { type := .IDENT, literal := [ 'c' ] }, peekToken := { type := .PLUS, literal := [ '+' ] }, errors := [] } = .ok (some (Expression.Identifier { type := .IDENT, literal := [ 'c' ] } [ 'c' ]), { l := { input := strChars "a + b * c + d / e - f", position := 11, readPosition := 12, ch := ' ' }, curToken := { type := .IDENT, literal := [ 'c' ] }, peekToken := { type := .PLUS, literal := [ '+' ] }, errors := [] }) := by
    show exprStep (exprRun 17) (.expr 5) { l := { input := strChars "a + b * c + d / e - f", position := 11, readPosition := 12, ch := ' ' }, curToken := { type := .IDENT, literal := [ 'c' ] }, peekToken := { type := .PLUS, literal := [ '+' ] }, errors := [] } = .ok (some (Expression.Identifier { type := .IDENT, literal := [ 'c' ] } [ 'c' ]), { l := { input := strChars "a + b * c + d / e - f", position := 11, readPosition := 12, ch := ' ' }, curToken := { type := .IDENT, literal := [ 'c' ] }, peekToken := { type := .PLUS, literal := [ '+' ] }, errors := [] })
    rw [exprStep_expr_ident (exprRun 17) 5 { l := { input := strChars "a + b * c + d / e - f", position := 11, readPosition := 12, ch := ' ' }, curToken := { type := .IDENT, literal := [ 'c' ] }, peekToken := { type := .PLUS, literal := [ '+' ] }, errors := [] } rfl]
    exact h1
  have h3 : exprRun 19 (.infixE (some (Expression.Identifier { type := .IDENT, literal := [ 'b' ] } [ 'b' ]))) { l := { input := strChars "a + b * c + d / e - f", position := 9, readPosition := 10, ch := ' ' }, curToken := { type := .ASTERISK, literal := [ '*' ] }, peekToken := { type := .IDENT, literal := [ 'c' ] }, errors := [] } = .ok (some (Expression.InfixExpression { type := .ASTERISK, literal := [ '*' ] } [ '*' ] (some (Expression.Identifier { type := .IDENT, literal := [ 'b' ] } [ 'b' ])) (some (Expression.Identifier { type := .IDENT, literal := [ 'c' ] } [ 'c' ]))), { l := { input := strChars "a + b * c + d / e - f", position := 11, readPosition := 12, ch := ' ' }, curToken := { type := .IDENT, literal := [ 'c' ] }, peekToken := { type := .PLUS, literal := [ '+' ] }, errors := [] }) := by
    show exprStep (exprRun 18) (.infixE (some (Expression.Identifier { type := .IDENT, literal := [ 'b' ] } [ 'b' ]))) { l := { input := strChars "a + b * c + d / e - f", position := 9, readPosition := 10, ch := ' ' }, curToken := { type := .ASTERISK, literal := [ '*' ] }, peekToken := { type := .IDENT, literal := [ 'c' ] }, errors := [] } = .ok (some (Expression.InfixExpression { type := .ASTERISK, literal := [ '*' ] } [ '*' ] (some (Expression.Identifier { type := .IDENT, literal := [ 'b' ] } [ 'b' ])) (some (Expression.Identifier { type := .IDENT, literal := [ 'c' ] } [ 'c' ]))), { l := { input := strChars "a + b * c + d / e - f", position := 11, readPosition := 12, ch := ' ' }, curToken := { type := .IDENT, literal := [ 'c' ] }, peekToken := { type := .PLUS, literal := [ '+' ] }, errors := [] })
    rw [exprStep_infixE (exprRun 18) (some (Expression.Identifier { type := .IDENT, literal := [ 'b' ] } [ 'b' ])) { l := { input := strChars "a + b * c + d / e - f", position := 9, readPosition := 10, ch := ' ' }, curToken := { type := .ASTERISK, literal := [ '*' ] }, peekToken := { type := .IDENT, literal := [ 'c' ] }, errors := [] } { l := { input := strChars "a + b * c + d / e - f", position := 11, readPosition := 12, ch := ' ' }, curToken := { type := .IDENT, literal := [ 'c' ] }, peekToken := { type := .PLUS, literal := [ '+' ] }, errors := [] }
      (some (Expression.Identifier { type := .IDENT, literal := [ 'c' ] } [ 'c' ])) { l := { input := strChars "a + b * c + d / e - f", position := 11, readPosition := 12, ch := ' ' }, curToken := { type := .IDENT, literal := [ 'c' ] }, peekToken := { type := .PLUS, literal := [ '+' ] }, errors := [] } rfl h2]
  have h4 : exprRun 19 (.loop 4 (some (Expression.InfixExpression { type := .ASTERISK, literal := [ '*' ] } [ '*' ] (some (Expression.Identifier { type := .IDENT, literal := [ 'b' ] } [ 'b' ])) (some (Expression.Identifier { type := .IDENT, literal := [ 'c' ] } [ 'c' ]))))) { l := { input := strChars "a + b * c + d / e - f", position := 11, readPosition := 12, ch := ' ' }, curToken := { type := .IDENT, literal := [ 'c' ] }, peekToken := { type := .PLUS, literal := [ '+' ] }, errors := [] } = .ok (some (Expression.InfixExpression { type := .ASTERISK, literal := [ '*' ] } [ '*' ] (some (Expression.Identifier { type := .IDENT, literal := [ 'b' ] } [ 'b' ])) (some (Expression.Identifier { type := .IDENT, literal := [ 'c' ] } [ 'c' ]))), { l := { input := strChars "a + b * c + d / e - f", position := 11, readPosition := 12, ch := ' ' }, curToken := { type := .IDENT, literal := [ 'c' ] }, peekToken := { type := .PLUS, literal := [ '+' ] }, errors := [] }) := by
    show exprStep (exprRun 18) (.loop 4 (some (Expression.InfixExpression { type := .ASTERISK, literal := [ '*' ] } [ '*' ] (some (Expression.Identifier { type := .IDENT, literal := [ 'b' ] } [ 'b' ])) (some (Expression.Identifier { type := .IDENT, literal := [ 'c' ] } [ 'c' ]))))) { l := { input := strChars "a + b * c + d / e - f", position := 11, readPosition := 12, ch := ' ' }, curToken := { type := .IDENT, literal := [ 'c' ] }, peekToken := { type := .PLUS, literal := [ '+' ] }, errors := [] } = .ok (some (Expression.InfixExpression { type := .ASTERISK, literal := [ '*' ] } [ '*' ] (some (Expression.Identifier { type := .IDENT, literal := [ 'b' ] } [ 'b' ])) (some (Expression.Identifier { type := .IDENT, literal := [ 'c' ] } [ 'c' ]))), { l := { input := strChars "a + b * c + d / e - f", position := 11, readPosition := 12, ch := ' ' }, curToken := { type := .IDENT, literal := [ 'c' ] }, peekToken := { type := .PLUS, literal := [ '+' ] }, errors := [] })
    exact exprStep_loop_exit (exprRun 18) 4 (some (Expression.InfixExpression { type := .ASTERISK, literal := [ '*' ] } [ '*' ] (some (Expression.Identifier { type := .IDENT, literal := [ 'b' ] } [ 'b' ])) (some (Expression.Identifier { type := .IDENT, literal := [ 'c' ] } [ 'c' ])))) { l := { input := strChars "a + b * c + d / e - f", position := 11, readPosition := 12, ch := ' ' }, curToken := { type := .IDENT, literal := [ 'c' ] }, peekToken := { type := .PLUS, literal := [ '+' ] }, errors := [] } (by decide)
  have h5 : exprRun 20 (.loop 4 (some (Expression.Identifier { type := .IDENT, literal := [ 'b' ] } [ 'b' ]))) { l := { input := strChars "a + b * c + d / e - f", position := 7, readPosition := 8, ch := ' ' }, curToken := { type := .IDENT, literal := [ 'b' ] }, peekToken := { type := .ASTERISK, literal := [ '*' ] }, errors := [] } = exprRun 19 (.loop 4 (some (Expression.InfixExpression { type := .ASTERISK, literal := [ '*' ] } [ '*' ] (some (Expression.Identifier { type := .IDENT, literal := [ 'b' ] } [ 'b' ])) (some (Expression.Identifier { type := .IDENT, literal := [ 'c' ] } [ 'c' ]))))) { l := { input := strChars "a + b * c + d / e - f", position := 11, readPosition := 12, ch := ' ' }, curToken := { type := .IDENT, literal := [ 'c' ] }, peekToken := { type := .PLUS, literal := [ '+' ] }, errors := [] } := by
    show exprStep (exprRun 19) (.loop 4 (some (Expression.Identifier { type := .IDENT, literal := [ 'b' ] } [ 'b' ]))) { l := { input := strChars "a + b * c + d / e - f", position := 7, readPosition := 8, ch := ' ' }, curToken := { type := .IDENT, literal := [ 'b' ] }, peekToken := { type := .ASTERISK, literal := [ '*' ] }, errors := [] } = exprRun 19 (.loop 4 (some (Expression.InfixExpression { type := .ASTERISK, literal := [ '*' ] } [ '*' ] (some (Expression.Identifier { type := .IDENT, literal := [ 'b' ] } [ 'b' ])) (some (Expression.Identifier { type := .IDENT, literal := [ 'c' ] } [ 'c' ]))))) { l := { input := strChars "a + b * c + d / e - f", position := 11, readPosition := 12, ch := ' ' }, curToken := { type := .IDENT, literal := [ 'c' ] }, peekToken := { type := .PLUS, literal := [ '+' ] }, errors := [] }
    exact exprStep_loop_iterate (exprRun 19) 4 (some (Expression.Identifier { type := .IDENT, literal := [ 'b' ] } [ 'b' ])) { l := { input := strChars "a + b * c + d / e - f", position := 7, readPosition := 8, ch := ' ' }, curToken := { type := .IDENT, literal := [ 'b' ] }, peekToken := { type := .ASTERISK, literal := [ '*' ] }, errors := [] } { l := { input := strChars "a + b * c + d / e - f", position := 9, readPosition := 10, ch := ' ' }, curToken := { type := .ASTERISK, literal := [ '*' ] }, peekToken := { type := .IDENT, literal := [ 'c' ] }, errors := [] }
      (some (Expression.InfixExpression { type := .ASTERISK, literal := [ '*' ] } [ '*' ] (some (Expression.Identifier { type := .IDENT, literal := [ 'b' ] } [ 'b' ])) (some (Expression.Identifier { type := .IDENT, literal := [ 'c' ] } [ 'c' ])))) { l := { input := strChars "a + b * c + d / e - f", position := 11, readPosition := 12, ch := ' ' }, curToken := { type := .IDENT, literal := [ 'c' ] }, peekToken := { type := .PLUS, literal := [ '+' ] }, errors := [] } (by decide) rfl rfl h3
  have h6 : exprRun 20 (.loop 4 (some (Expression.Identifier { type := .IDENT, literal := [ 'b' ] } [ 'b' ]))) { l := { input := strChars "a + b * c + d / e - f", position := 7, readPosition := 8, ch := ' ' }, curToken := { type := .IDENT, literal := [ 'b' ] }, peekToken := { type := .ASTERISK, literal := [ '*' ] }, errors := [] } = .ok (some (Expression.InfixExpression { type := .ASTERISK, literal := [ '*' ] } [ '*' ] (some (Expression.Identifier { type := .IDENT, literal := [ 'b' ] } [ 'b' ])) (some (Expression.Identifier { type := .IDENT, literal := [ 'c' ] } [ 'c' ]))), { l := { input := strChars "a + b * c + d / e - f", position := 11, readPosition := 12, ch := ' ' }, curToken := { type := .IDENT, literal := [ 'c' ] }, peekToken := { type := .PLUS, literal := [ '+' ] }, errors := [] }) := h5.trans h4
  have h7 : exprRun 21 (.expr 4) { l := { input := strChars "a + b * c + d / e - f", position := 7, readPosition := 8, ch := ' ' }, curToken := { type := .IDENT, literal := [ 'b' ] }, peekToken := { type := .ASTERISK, literal := [ '*' ] }, errors := [] } = .ok (some (Expression.InfixExpression { type := .ASTERISK, literal := [ '*' ] } [ '*' ] (some (Expression.Identifier { type := .IDENT, literal := [ 'b' ] } [ 'b' ])) (some (Expression.Identifier { type := .IDENT, literal := [ 'c' ] } [ 'c' ]))), { l := { input := strChars "a + b * c + d / e - f", position := 11, readPosition := 12, ch := ' ' }, curToken := { type := .IDENT, literal := [ 'c' ] }, peekToken := { type := .PLUS, literal := [ '+' ] }, errors := [] }) := by
    show exprStep (exprRun 20) (.expr 4) { l := { input := strChars "a + b * c + d / e - f", position := 7, readPosition := 8, ch := ' ' }, curToken := { type := .IDENT, literal := [ 'b' ] }, peekToken := { type := .ASTERISK, literal := [ '*' ] }, errors := [] } = .ok (some (Expression.InfixExpression { type := .ASTERISK, literal := [ '*' ] } [ '*' ] (some (Expression.Identifier { type := .IDENT, literal := [ 'b' ] } [ 'b' ])) (some (Expression.Identifier { type := .IDENT, literal := [ 'c' ] } [ 'c' ]))), { l := { input := strChars "a + b * c + d / e - f", position := 11, readPosition := 12, ch := ' ' }, curToken := { type := .IDENT, literal := [ 'c' ] }, peekToken := { type := .PLUS, literal := [ '+' ] }, errors := [] })
    rw [exprStep_expr_ident (exprRun 20) 4 { l := { input := strChars "a + b * c + d / e - f", position := 7, readPosition := 8, ch := ' ' }, curToken := { type := .IDENT, literal := [ 'b' ] }, peekToken := { type := .ASTERISK, literal := [ '*' ] }, errors := [] } rfl]
    exact h6
  have h8 : exprRun 22 (.infixE (some (Expression.Identifier { type := .IDENT, literal := [ 'a' ] } [ 'a' ]))) { l := { input := strChars "a + b * c + d / e - f", position := 5, readPosition := 6, ch := ' ' }, curToken := { type := .PLUS, literal := [ '+' ] }, peekToken := { type := .IDENT, literal := [ 'b' ] }, errors := [] } = .ok (some (Expression.InfixExpression { type := .PLUS, literal := [ '+' ] } [ '+' ] (some (Expression.Identifier { type := .IDENT, literal := [ 'a' ] } [ 'a' ])) (some (Expression.InfixExpression { type := .ASTERISK, literal := [ '*' ] } [ '*' ] (some (Expression.Identifier { type := .IDENT, literal := [ 'b' ] } [ 'b' ])) (some (Expression.Identifier { type := .IDENT, literal := [ 'c' ] } [ 'c' ]))))), { l := { input := strChars "a + b * c + d / e - f", position := 11, readPosition := 12, ch := ' ' }, curToken := { type := .IDENT, literal := [ 'c' ] }, peekToken := { type := .PLUS, literal := [ '+' ] }, errors := [] }) := by
    show exprStep (exprRun 21) (.infixE (some (Expression.Identifier { type := .IDENT, literal := [ 'a' ] } [ 'a' ]))) { l := { input := strChars "a + b * c + d / e - f", position := 5, readPosition := 6, ch := ' ' }, curToken := { type := .PLUS, literal := [ '+' ] }, peekToken := { type := .IDENT, literal := [ 'b' ] }, errors := [] } = .ok (some (Expression.InfixExpression { type := .PLUS, literal := [ '+' ] } [ '+' ] (some (Expression.Identifier { type := .IDENT, literal := [ 'a' ] } [ 'a' ])) (some (Expression.InfixExpression { type := .ASTERISK, literal := [ '*' ] } [ '*' ] (some (Expression.Identifier { type := .IDENT, literal := [ 'b' ] } [ 'b' ])) (some (Expression.Identifier { type := .IDENT, literal := [ 'c' ] } [ 'c' ]))))), { l := { input := strChars "a + b * c + d / e - f", position := 11, readPosition := 12, ch := ' ' }, curToken := { type := .IDENT, literal := [ 'c' ] }, peekToken := { type := .PLUS, literal := [ '+' ] }, errors := [] })
    rw [exprStep_infixE (exprRun 21) (some (Expression.Identifier { type := .IDENT, literal := [ 'a' ] } [ 'a' ])) { l := { input := strChars "a + b * c + d / e - f", position := 5, readPosition := 6, ch := ' ' }, curToken := { type := .PLUS, literal := [ '+' ] }, peekToken := { type := .IDENT, literal := [ 'b' ] }, errors := [] } { l := { input := strChars "a + b * c + d / e - f", position := 7, readPosition := 8, ch := ' ' }, curToken := { type := .IDENT, literal := [ 'b' ] }, peekToken := { type := .ASTERISK, literal := [ '*' ] }, errors := [] }
      (some (Expression.InfixExpression { type := .ASTERISK, literal := [ '*' ] } [ '*' ] (some (Expression.Identifier { type := .IDENT, literal := [ 'b' ] } [ 'b' ])) (some (Expression.Identifier { type := .IDENT, literal := [ 'c' ] } [ 'c' ])))) { l := { input := strChars "a + b * c + d / e - f", position := 11, readPosition := 12, ch := ' ' }, curToken := { type := .IDENT, literal := [ 'c' ] }, peekToken := { type := .PLUS, literal := [ '+' ] }, errors := [] } rfl h7]
  have h9 : exprRun 16 (.loop 5 (some (Expression.Identifier { type := .IDENT, literal := [ 'e' ] } [ 'e' ]))) { l := { input := strChars "a + b * c + d / e - f", position := 19, readPosition := 20, ch := ' ' }, curToken := { type := .IDENT, literal := [ 'e' ] }, peekToken := { type := .MINUS, literal := [ '-' ] }, errors := [] } = .ok (some (Expression.Identifier { type := .IDENT, literal := [ 'e' ] } [ 'e' ]), { l := { input := strChars "a + b * c + d / e - f", position := 19, readPosition := 20, ch := ' ' }, curToken := { type := .IDENT, literal := [ 'e' ] }, peekToken := { type := .MINUS, literal := [ '-' ] }, errors := [] }) := by
    show exprStep (exprRun 15) (.loop 5 (some (Expression.Identifier { type := .IDENT, literal := [ 'e' ] } [ 'e' ]))) { l := { input := strChars "a + b * c + d / e - f", position := 19, readPosition := 20, ch := ' ' }, curToken := { type := .IDENT, literal := [ 'e' ] }, peekToken := { type := .MINUS, literal := [ '-' ] }, errors := [] } = .ok (some (Expression.Identifier { type := .IDENT, literal := [ 'e' ] } [ 'e' ]), { l := { input := strChars "a + b * c + d / e - f", position := 19, readPosition := 20, ch := ' ' }, curToken := { type := .IDENT, literal := [ 'e' ] }, peekToken := { type := .MINUS, literal := [ '-' ] }, errors := [] })
    exact exprStep_loop_exit (exprRun 15) 5 (some (Expression.Identifier { type := .IDENT, literal := [ 'e' ] } [ 'e' ])) { l := { input := strChars "a + b * c + d / e - f", position := 19, readPosition := 20, ch := ' ' }, curToken := { type := .IDENT, literal := [ 'e' ] }, peekToken := { type := .MINUS, literal := [ '-' ] }, errors := [] } (by decide)
  have h10 : exprRun 17 (.expr 5) { l := { input := strChars "a + b * c + d / e - f", position := 19, readPosition := 20, ch := ' ' }, curToken := { type := .IDENT, literal := [ 'e' ] }, peekToken := { type := .MINUS, literal := [ '-' ] }, errors := [] } = .ok (some (Expression.Identifier { type := .IDENT, literal := [ 'e' ] } [ 'e' ]), { l := { input := strChars "a + b * c + d / e - f", position := 19, readPosition := 20, ch := ' ' }, curToken := { type := .IDENT, literal := [ 'e' ] }, peekToken := { type := .MINUS, literal := [ '-' ] }, errors := [] }) := by
    show exprStep (exprRun 16) (.expr 5) { l := { input := strChars "a + b * c + d / e - f", position := 19, readPosition := 20, ch := ' ' }, curToken := { type := .IDENT, literal := [ 'e' ] }, peekToken := { type := .MINUS, literal := [ '-' ] }, errors := [] } = .ok (some (Expression.Identifier { type := .IDENT, literal := [ 'e' ] } [ 'e' ]), { l := { input := strChars "a + b * c + d / e - f", position := 19, readPosition := 20, ch := ' ' }, curToken := { type := .IDENT, literal := [ 'e' ] }, peekToken := { type := .MINUS, literal := [ '-' ] }, errors := [] })
    rw [exprStep_expr_ident (exprRun 16) 5 { l := { input := strChars "a + b * c + d / e - f", position := 19, readPosition := 20, ch := ' ' }, curToken := { type := .IDENT, literal := [ 'e' ] }, peekToken := { type := .MINUS, literal := [ '-' ] }, errors := [] } rfl]
    exact h9
  have h11 : exprRun 18 (.infixE (some (Expression.Identifier { type := .IDENT, literal := [ 'd' ] } [ 'd' ]))) { l := { input := strChars "a + b * c + d / e - f", position := 17, readPosition := 18, ch := ' ' }, curToken := { type := .SLASH, literal := [ '/' ] }, peekToken := { type := .IDENT, literal := [ 'e' ] }, errors := [] } = .ok (some (Expression.InfixExpression { type := .SLASH, literal := [ '/' ] } [ '/' ] (some (Expression.Identifier { type := .IDENT, literal := [ 'd' ] } [ 'd' ])) (some (Expression.Identifier { type := .IDENT, literal := [ 'e' ] } [ 'e' ]))), { l := { input := strChars "a + b * c + d / e - f", position := 19, readPosition := 20, ch := ' ' }, curToken := { type := .IDENT, literal := [ 'e' ] }, peekToken := { type := .MINUS, literal := [ '-' ] }, errors := [] }) := by
    show exprStep (exprRun 17) (.infixE (some (Expression.Identifier { type := .IDENT, literal := [ 'd' ] } [ 'd' ]))) { l := { input := strChars "a + b * c + d / e - f", position := 17, readPosition := 18, ch := ' ' }, curToken := { type := .SLASH, literal := [ '/' ] }, peekToken := { type := .IDENT, literal := [ 'e' ] }, errors := [] } = .ok (some (Expression.InfixExpression { type := .SLASH, literal := [ '/' ] } [ '/' ] (some (Expression.Identifier { type := .IDENT, literal := [ 'd' ] } [ 'd' ])) (some (Expression.Identifier { type := .IDENT, literal := [ 'e' ] } [ 'e' ]))), { l := { input := strChars "a + b * c + d / e - f", position := 19, readPosition := 20, ch := ' ' }, curToken := { type := .IDENT, literal := [ 'e' ] }, peekToken := { type := .MINUS, literal := [ '-' ] }, errors := [] })
    rw [exprStep_infixE (exprRun 17) (some (Expression.Identifier { type := .IDENT, literal := [ 'd' ] } [ 'd' ])) { l := { input := strChars "a + b * c + d / e - f", position := 17, readPosition := 18, ch := ' ' }, curToken := { type := .SLASH, literal := [ '/' ] }, peekToken := { type := .IDENT, literal := [ 'e' ] }, errors := [] } { l := { input := strChars "a + b * c + d / e - f", position := 19, readPosition := 20, ch := ' ' }, curToken := { type := .IDENT, literal := [ 'e' ] }, peekToken := { type := .MINUS, literal := [ '-' ] }, errors := [] }
      (some (Expression.Identifier { type := .IDENT, literal := [ 'e' ] } [ 'e' ])) { l := { input := strChars "a + b * c + d / e - f", position := 19, readPosition := 20, ch := ' ' }, curToken := { type := .IDENT, literal := [ 'e' ] }, peekToken := { type := .MINUS, literal := [ '-' ] }, errors := [] } rfl h10]
  have h12 : exprRun 18 (.loop 4 (some (Expression.InfixExpression { type := .SLASH, literal := [ '/' ] } [ '/' ] (some (Expression.Identifier { type := .IDENT, literal := [ 'd' ] } [ 'd' ])) (some (Expression.Identifier { type := .IDENT, literal := [ 'e' ] } [ 'e' ]))))) { l := { input := strChars "a + b * c + d / e - f", position := 19, readPosition := 20, ch := ' ' }, curToken := { type := .IDENT, literal := [ 'e' ] }, peekToken := { type := .MINUS, literal := [ '-' ] }, errors := [] } = .ok (some (Expression.InfixExpression { type := .SLASH, literal := [ '/' ] } [ '/' ] (some (Expression.Identifier { type := .IDENT, literal := [ 'd' ] } [ 'd' ])) (some (Expression.Identifier { type := .IDENT, literal := [ 'e' ] } [ 'e' ]))), { l := { input := strChars "a + b * c + d / e - f", position := 19, readPosition := 20, ch := ' ' }, curToken := { type := .IDENT, literal := [ 'e' ] }, peekToken := { type := .MINUS, literal := [ '-' ] }, errors := [] }) := by
    show exprStep (exprRun 17) (.loop 4 (some (Expression.InfixExpression { type := .SLASH, literal := [ '/' ] } [ '/' ] (some (Expression.Identifier { type := .IDENT, literal := [ 'd' ] } [ 'd' ])) (some (Expression.Identifier { type := .IDENT, literal := [ 'e' ] } [ 'e' ]))))) { l := { input := strChars "a + b * c + d / e - f", position := 19, readPosition := 20, ch := ' ' }, curToken := { type := .IDENT, literal := [ 'e' ] }, peekToken := { type := .MINUS, literal := [ '-' ] }, errors := [] } = .ok (some (Expression.InfixExpression { type := .SLASH, literal := [ '/' ] } [ '/' ] (some (Expression.Identifier { type := .IDENT, literal := [ 'd' ] } [ 'd' ])) (some (Expression.Identifier { type := .IDENT, literal := [ 'e' ] } [ 'e' ]))), { l := { input := strChars "a + b * c + d / e - f", position := 19, readPosition := 20, ch := ' ' }, curToken := { type := .IDENT, literal := [ 'e' ] }, peekToken := { type := .MINUS, literal := [ '-' ] }, errors := [] })
    exact exprStep_loop_exit (exprRun 17) 4 (some (Expression.InfixExpression { type := .SLASH, literal := [ '/' ] } [ '/' ] (some (Expression.Identifier { type := .IDENT, literal := [ 'd' ] } [ 'd' ])) (some (Expression.Identifier { type := .IDENT, literal := [ 'e' ] } [ 'e' ])))) { l := { input := strChars "a + b * c + d / e - f", position := 19, readPosition := 20, ch := ' ' }, curToken := { type := .IDENT, literal := [ 'e' ] }, peekToken := { type := .MINUS, literal := [ '-' ] }, errors := [] } (by decide)
  have h13 : exprRun 19 (.loop 4 (some (Expression.Identifier { type := .IDENT, literal := [ 'd' ] } [ 'd' ]))) { l := { input := strChars "a + b * c + d / e - f", position := 15, readPosition := 16, ch := ' ' }, curToken := { type := .IDENT, literal := [ 'd' ] }, peekToken := { type := .SLASH, literal := [ '/' ] }, errors := [] } = exprRun 18 (.loop 4 (some (Expression.InfixExpression { type := .SLASH, literal := [ '/' ] } [ '/' ] (some (Expression.Identifier { type := .IDENT, literal := [ 'd' ] } [ 'd' ])) (some (Expression.Identifier { type := .IDENT, literal := [ 'e' ] } [ 'e' ]))))) { l := { input := strChars "a + b * c + d / e - f", position := 19, readPosition := 20, ch := ' ' }, curToken := { type := .IDENT, literal := [ 'e' ] }, peekToken := { type := .MINUS, literal := [ '-' ] }, errors := [] } := by
    show exprStep (exprRun 18) (.loop 4 (some (Expression.Identifier { type := .IDENT, literal := [ 'd' ] } [ 'd' ]))) { l := { input := strChars "a + b * c + d / e - f", position := 15, readPosition := 16, ch := ' ' }, curToken := { type := .IDENT, literal := [ 'd' ] }, peekToken := { type := .SLASH, literal := [ '/' ] }, errors := [] } = exprRun 18 (.loop 4 (some (Expression.InfixExpression { type := .SLASH, literal := [ '/' ] } [ '/' ] (some (Expression.Identifier { type := .IDENT, literal := [ 'd' ] } [ 'd' ])) (some (Expression.Identifier { type := .IDENT, literal := [ 'e' ] } [ 'e' ]))))) { l := { input := strChars "a + b * c + d / e - f", position := 19, readPosition := 20, ch := ' ' }, curToken := { type := .IDENT, literal := [ 'e' ] }, peekToken := { type := .MINUS, literal := [ '-' ] }, errors := [] }
    exact exprStep_loop_iterate (exprRun 18) 4 (some (Expression.Identifier { type := .IDENT, literal := [ 'd' ] } [ 'd' ])) { l := { input := strChars "a + b * c + d / e - f", position := 15, readPosition := 16, ch := ' ' }, curToken := { type := .IDENT, literal := [ 'd' ] }, peekToken := { type := .SLASH, literal := [ '/' ] }, errors := [] } { l := { input := strChars "a + b * c + d / e - f", position := 17, readPosition := 18, ch := ' ' }, curToken := { type := .SLASH, literal := [ '/' ] }, peekToken := { type := .IDENT, literal := [ 'e' ] }, errors := [] }
      (some (Expression.InfixExpression { type := .SLASH, literal := [ '/' ] } [ '/' ] (some (Expression.Identifier { type := .IDENT, literal := [ 'd' ] } [ 'd' ])) (some (Expression.Identifier { type := .IDENT, literal := [ 'e' ] } [ 'e' ])))) { l := { input := strChars "a + b * c + d / e - f", position := 19, readPosition := 20, ch := ' ' }, curToken := { type := .IDENT, literal := [ 'e' ] }, peekToken := { type := .MINUS, literal := [ '-' ] }, errors := [] } (by decide) rfl rfl h11
  have h14 : exprRun 19 (.loop 4 (some (Expression.Identifier { type := .IDENT, literal := [ 'd' ] } [ 'd' ]))) { l := { input := strChars "a + b * c + d / e - f", position := 15, readPosition := 16, ch := ' ' }, curToken := { type := .IDENT, literal := [ 'd' ] }, peekToken := { type := .SLASH, literal := [ '/' ] }, errors := [] } = .ok (some (Expression.InfixExpression { type := .SLASH, literal := [ '/' ] } [ '/' ] (some (Expression.Identifier { type := .IDENT, literal := [ 'd' ] } [ 'd' ])) (some (Expression.Identifier { type := .IDENT, literal := [ 'e' ] } [ 'e' ]))), { l := { input := strChars "a + b * c + d / e - f", position := 19, readPosition := 20, ch := ' ' }, curToken := { type := .IDENT, literal := [ 'e' ] }, peekToken := { type := .MINUS, literal := [ '-' ] }, errors := [] }) := h13.trans h12
  have h15 : exprRun 20 (.expr 4) { l := { input := strChars "a + b * c + d / e - f", position := 15, readPosition := 16, ch := ' ' }, curToken := { type := .IDENT, literal := [ 'd' ] }, peekToken := { type := .SLASH, literal := [ '/' ] }, errors := [] } = .ok (some (Expression.InfixExpression { type := .SLASH, literal := [ '/' ] } [ '/' ] (some (Expression.Identifier { type := .IDENT, literal := [ 'd' ] } [ 'd' ])) (some (Expression.Identifier { type := .IDENT, literal := [ 'e' ] } [ 'e' ]))), { l := { input := strChars "a + b * c + d / e - f", position := 19, readPosition := 20, ch := ' ' }, curToken := { type := .IDENT, literal := [ 'e' ] }, peekToken := { type := .MINUS, literal := [ '-' ] }, errors := [] }) := by
    show exprStep (exprRun 19) (.expr 4) { l := { input := strChars "a + b * c + d / e - f", position := 15, readPosition := 16, ch := ' ' }, curToken := { type := .IDENT, literal := [ 'd' ] }, peekToken := { type := .SLASH, literal := [ '/' ] }, errors := [] } = .ok (some (Expression.InfixExpression { type := .SLASH, literal := [ '/' ] } [ '/' ] (some (Expression.Identifier { type := .IDENT, literal := [ 'd' ] } [ 'd' ])) (some (Expression.Identifier { type := .IDENT, literal := [ 'e' ] } [ 'e' ]))), { l := { input := strChars "a + b * c + d / e - f", position := 19, readPosition := 20, ch := ' ' }, curToken := { type := .IDENT, literal := [ 'e' ] }, peekToken := { type := .MINUS, literal := [ '-' ] }, errors := [] })
    rw [exprStep_expr_ident (exprRun 19) 4 { l := { input := strChars "a + b * c + d / e - f", position := 15, readPosition := 16, ch := ' ' }, curToken := { type := .IDENT, literal := [ 'd' ] }, peekToken := { type := .SLASH, literal := [ '/' ] }, errors := [] } rfl]
    exact h14
  have h16 : exprRun 21 (.infixE (some (Expression.InfixExpression { type := .PLUS, literal := [ '+' ] } [ '+' ] (some (Expression.Identifier { type := .IDENT, literal := [ 'a' ] } [ 'a' ])) (some (Expression.InfixExpression { type := .ASTERISK, literal := [ '*' ] } [ '*' ] (some (Expression.Identifier { type := .IDENT, literal := [ 'b' ] } [ 'b' ])) (some (Expression.Identifier { type := .IDENT, literal := [ 'c' ] } [ 'c' ]))))))) { l := { input := strChars "a + b * c + d / e - f", position := 13, readPosition := 14, ch := ' ' }, curToken := { type := .PLUS, literal := [ '+' ] }, peekToken := { type := .IDENT, literal := [ 'd' ] }, errors := [] } = .ok (some (Expression.InfixExpression { type := .PLUS, literal := [ '+' ] } [ '+' ] (some (Expression.InfixExpression { type := .PLUS, literal := [ '+' ] } [ '+' ] (some (Expression.Identifier { type := .IDENT, literal := [ 'a' ] } [ 'a' ])) (some (Expression.InfixExpression { type := .ASTERISK, literal := [ '*' ] } [ '*' ] (some (Expression.Identifier { type := .IDENT, literal := [ 'b' ] } [ 'b' ])) (some (Expression.Identifier { type := .IDENT, literal := [ 'c' ] } [ 'c' ])))))) (some (Expression.InfixExpression { type := .SLASH, literal := [ '/' ] } [ '/' ] (some (Expression.Identifier { type := .IDENT, literal := [ 'd' ] } [ 'd' ])) (some (Expression.Identifier { type := .IDENT, literal := [ 'e' ] } [ 'e' ]))))), { l := { input := strChars "a + b * c + d / e - f", position := 19, readPosition := 20, ch := ' ' }, curToken := { type := .IDENT, literal := [ 'e' ] }, peekToken := { type := .MINUS, literal := [ '-' ] }, errors := [] }) := by
    show exprStep (exprRun 20) (.infixE (some (Expression.InfixExpression { type := .PLUS, literal := [ '+' ] } [ '+' ] (some (Expression.Identifier { type := .IDENT, literal := [ 'a' ] } [ 'a' ])) (some (Expression.InfixExpression { type := .ASTERISK, literal := [ '*' ] } [ '*' ] (some (Expression.Identifier { type := .IDENT, literal := [ 'b' ] } [ 'b' ])) (some (Expression.Identifier { type := .IDENT, literal := [ 'c' ] } [ 'c' ]))))))) { l := { input := strChars "a + b * c + d / e - f", position := 13, readPosition := 14, ch := ' ' }, curToken := { type := .PLUS, literal := [ '+' ] }, peekToken := { type := .IDENT, literal := [ 'd' ] }, errors := [] } = .ok (some (Expression.InfixExpression { type := .PLUS, literal := [ '+' ] } [ '+' ] (some (Expression.InfixExpression { type := .PLUS, literal := [ '+' ] } [ '+' ] (some (Expression.Identifier { type := .IDENT, literal := [ 'a' ] } [ 'a' ])) (some (Expression.InfixExpression { type := .ASTERISK, literal := [ '*' ] } [ '*' ] (some (Expression.Identifier { type := .IDENT, literal := [ 'b' ] } [ 'b' ])) (some (Expression.Identifier { type := .IDENT, literal := [ 'c' ] } [ 'c' ])))))) (some (Expression.InfixExpression { type := .SLASH, literal := [ '/' ] } [ '/' ] (some (Expression.Identifier { type := .IDENT, literal := [ 'd' ] } [ 'd' ])) (some (Expression.Identifier { type := .IDENT, literal := [ 'e' ] } [ 'e' ]))))), { l := { input := strChars "a + b * c + d / e - f", position := 19, readPosition := 20, ch := ' ' }, curToken := { type := .IDENT, literal := [ 'e' ] }, peekToken := { type := .MINUS, literal := [ '-' ] }, errors := [] })
    rw [exprStep_infixE (exprRun 20) (some (Expression.InfixExpression { type := .PLUS, literal := [ '+' ] } [ '+' ] (some (Expression.Identifier { type := .IDENT, literal := [ 'a' ] } [ 'a' ])) (some (Expression.InfixExpression { type := .ASTERISK, literal := [ '*' ] } [ '*' ] (some (Expression.Identifier { type := .IDENT, literal := [ 'b' ] } [ 'b' ])) (some (Expression.Identifier { type := .IDENT, literal := [ 'c' ] } [ 'c' ])))))) { l := { input := strChars "a + b * c + d / e - f", position := 13, readPosition := 14, ch := ' ' }, curToken := { type := .PLUS, literal := [ '+' ] }, peekToken := { type := .IDENT, literal := [ 'd' ] }, errors := [] } { l := { input := strChars "a + b * c + d / e - f", position := 15, readPosition := 16, ch := ' ' }, curToken := { type := .IDENT, literal := [ 'd' ] }, peekToken := { type := .SLASH, literal := [ '/' ] }, errors := [] }
      (some (Expression.InfixExpression { type := .SLASH, literal := [ '/' ] } [ '/' ] (some (Expression.Identifier { type := .IDENT, literal := [ 'd' ] } [ 'd' ])) (some (Expression.Identifier { type := .IDENT, literal := [ 'e' ] } [ 'e' ])))) { l := { input := strChars "a + b * c + d / e - f", position := 19, readPosition := 20, ch := ' ' }, curToken := { type := .IDENT, literal := [ 'e' ] }, peekToken := { type := .MINUS, literal := [ '-' ] }, errors := [] } rfl h15]
  have h17 : exprRun 18 (.loop 4 (some (Expression.Identifier { type := .IDENT, literal := [ 'f' ] } [ 'f' ]))) { l := { input := strChars "a + b * c + d / e - f", position := 22, readPosition := 23, ch := nul }, curToken := { type := .IDENT, literal := [ 'f' ] }, peekToken := { type := .EOF, literal := [] }, errors := [] } = .ok (some (Expression.Identifier { type := .IDENT, literal := [ 'f' ] } [ 'f' ]), { l := { input := strChars "a + b * c + d / e - f", position := 22, readPosition := 23, ch := nul }, curToken := { type := .IDENT, literal := [ 'f' ] }, peekToken := { type := .EOF, literal := [] }, errors := [] }) := by
    show exprStep (exprRun 17) (.loop 4 (some (Expression.Identifier { type := .IDENT, literal := [ 'f' ] } [ 'f' ]))) { l := { input := strChars "a + b * c + d / e - f", position := 22, readPosition := 23, ch := nul }, curToken := { type := .IDENT, literal := [ 'f' ] }, peekToken := { type := .EOF, literal := [] }, errors := [] } = .ok (some (Expression.Identifier { type := .IDENT, literal := [ 'f' ] } [ 'f' ]), { l := { input := strChars "a + b * c + d / e - f", position := 22, readPosition := 23, ch := nul }, curToken := { type := .IDENT, literal := [ 'f' ] }, peekToken := { type := .EOF, literal := [] }, errors := [] })
    exact exprStep_loop_exit (exprRun 17) 4 (some (Expression.Identifier { type := .IDENT, literal := [ 'f' ] } [ 'f' ])) { l := { input := strChars "a + b * c + d / e - f", position := 22, readPosition := 23, ch := nul }, curToken := { type := .IDENT, literal := [ 'f' ] }, peekToken := { type := .EOF, literal := [] }, errors := [] } (by decide)
  have h18 : exprRun 19 (.expr 4) { l := { input := strChars "a + b * c + d / e - f", position := 22, readPosition := 23, ch := nul }, curToken := { type := .IDENT, literal := [ 'f' ] }, peekToken := { type := .EOF, literal := [] }, errors := [] } = .ok (some (Expression.Identifier { type := .IDENT, literal := [ 'f' ] } [ 'f' ]), { l := { input := strChars "a + b * c + d / e - f", position := 22, readPosition := 23, ch := nul }, curToken := { type := .IDENT, literal := [ 'f' ] }, peekToken := { type := .EOF, literal := [] }, errors := [] }) := by
    show exprStep (exprRun 18) (.expr 4) { l := { input := strChars "a + b * c + d / e - f", position := 22, readPosition := 23, ch := nul }, curToken := { type := .IDENT, literal := [ 'f' ] }, peekToken := { type := .EOF, literal := [] }, errors := [] } = .ok (some (Expression.Identifier { type := .IDENT, literal := [ 'f' ] } [ 'f' ]), { l := { input := strChars "a + b * c + d / e - f", position := 22, readPosition := 23, ch := nul }, curToken := { type := .IDENT, literal := [ 'f' ] }, peekToken := { type := .EOF, literal := [] }, errors := [] })
    rw [exprStep_expr_ident (exprRun 18) 4 { l := { input := strChars "a + b * c + d / e - f", position := 22, readPosition := 23, ch := nul }, curToken := { type := .IDENT, literal := [ 'f' ] }, peekToken := { type := .EOF, literal := [] }, errors := [] } rfl]
    exact h17
  have h19 : exprRun 20 (.infixE (some (Expression.InfixExpression { type := .PLUS, literal := [ '+' ] } [ '+' ] (some (Expression.InfixExpression { type := .PLUS, literal := [ '+' ] } [ '+' ] (some (Expression.Identifier { type := .IDENT, literal := [ 'a' ] } [ 'a' ])) (some (Expression.InfixExpression { type := .ASTERISK, literal := [ '*' ] } [ '*' ] (some (Expression.Identifier { type := .IDENT, literal := [ 'b' ] } [ 'b' ])) (some (Expression.Identifier { type := .IDENT, literal := [ 'c' ] } [ 'c' ])))))) (some (Expression.InfixExpression { type := .SLASH, literal := [ '/' ] } [ '/' ] (some (Expression.Identifier { type := .IDENT, literal := [ 'd' ] } [ 'd' ])) (some (Expression.Identifier { type := .IDENT, literal := [ 'e' ] } [ 'e' ]))))))) { l := { input := strChars "a + b * c + d / e - f", position := 21, readPosition := 22, ch := nul }, curToken := { type := .MINUS, literal := [ '-' ] }, peekToken := { type := .IDENT, literal := [ 'f' ] }, errors := [] } = .ok (some (Expression.InfixExpression { type := .MINUS, literal := [ '-' ] } [ '-' ] (some (Expression.InfixExpression { type := .PLUS, literal := [ '+' ] } [ '+' ] (some (Expression.InfixExpression { type := .PLUS, literal := [ '+' ] } [ '+' ] (some (Expression.Identifier { type := .IDENT, literal := [ 'a' ] } [ 'a' ])) (some (Expression.InfixExpression { type := .ASTERISK, literal := [ '*' ] } [ '*' ] (some (Expression.Identifier { type := .IDENT, literal := [ 'b' ] } [ 'b' ])) (some (Expression.Identifier { type := .IDENT, literal := [ 'c' ] } [ 'c' ])))))) (some (Expression.InfixExpression { type := .SLASH, literal := [ '/' ] } [ '/' ] (some (Expression.Identifier { type := .IDENT, literal := [ 'd' ] } [ 'd' ])) (some (Expression.Identifier { type := .IDENT, literal := [ 'e' ] } [ 'e' ])))))) (some (Expression.Identifier { type := .IDENT, literal := [ 'f' ] } [ 'f' ]))), { l := { input := strChars "a + b * c + d / e - f", position := 22, readPosition := 23, ch := nul }, curToken := { type := .IDENT, literal := [ 'f' ] }, peekToken := { type := .EOF, literal := [] }, errors := [] }) := by
    show exprStep (exprRun 19) (.infixE (some (Expression.InfixExpression { type := .PLUS, literal := [ '+' ] } [ '+' ] (some (Expression.InfixExpression { type := .PLUS, literal := [ '+' ] } [ '+' ] (some (Expression.Identifier { type := .IDENT, literal := [ 'a' ] } [ 'a' ])) (some (Expression.InfixExpression { type := .ASTERISK, literal := [ '*' ] } [ '*' ] (some (Expression.Identifier { type := .IDENT, literal := [ 'b' ] } [ 'b' ])) (some (Expression.Identifier { type := .IDENT, literal := [ 'c' ] } [ 'c' ])))))) (some (Expression.InfixExpression { type := .SLASH, literal := [ '/' ] } [ '/' ] (some (Expression.Identifier { type := .IDENT, literal := [ 'd' ] } [ 'd' ])) (some (Expression.Identifier { type := .IDENT, literal := [ 'e' ] } [ 'e' ]))))))) { l := { input := strChars "a + b * c + d / e - f", position := 21, readPosition := 22, ch := nul }, curToken := { type := .MINUS, literal := [ '-' ] }, peekToken := { type := .IDENT, literal := [ 'f' ] }, errors := [] } = .ok (some (Expression.InfixExpression { type := .MINUS, literal := [ '-' ] } [ '-' ] (some (Expression.InfixExpression { type := .PLUS, literal := [ '+' ] } [ '+' ] (some (Expression.InfixExpression { type := .PLUS, literal := [ '+' ] } [ '+' ] (some (Expression.Identifier { type := .IDENT, literal := [ 'a' ] } [ 'a' ])) (some (Expression.InfixExpression { type := .ASTERISK, literal := [ '*' ] } [ '*' ] (some (Expression.Identifier { type := .IDENT, literal := [ 'b' ] } [ 'b' ])) (some (Expression.Identifier { type := .IDENT, literal := [ 'c' ] } [ 'c' ])))))) (some (Expression.InfixExpression { type := .SLASH, literal := [ '/' ] } [ '/' ] (some (Expression.Identifier { type := .IDENT, literal := [ 'd' ] } [ 'd' ])) (some (Expression.Identifier { type := .IDENT, literal := [ 'e' ] } [ 'e' ])))))) (some (Expression.Identifier { type := .IDENT, literal := [ 'f' ] } [ 'f' ]))), { l := { input := strChars "a + b * c + d / e - f", position := 22, readPosition := 23, ch := nul }, curToken := { type := .IDENT, literal := [ 'f' ] }, peekToken := { type := .EOF, literal := [] }, errors := [] })
    rw [exprStep_infixE (exprRun 19) (some (Expression.InfixExpression { type := .PLUS, literal := [ '+' ] } [ '+' ] (some (Expression.InfixExpression { type := .PLUS, literal := [ '+' ] } [ '+' ] (some (Expression.Identifier { type := .IDENT, literal := [ 'a' ] } [ 'a' ])) (some (Expression.InfixExpression { type := .ASTERISK, literal := [ '*' ] } [ '*' ] (some (Expression.Identifier { type := .IDENT, literal := [ 'b' ] } [ 'b' ])) (some (Expression.Identifier { type := .IDENT, literal := [ 'c' ] } [ 'c' ])))))) (some (Expression.InfixExpression { type := .SLASH, literal := [ '/' ] } [ '/' ] (some (Expression.Identifier { type := .IDENT, literal := [ 'd' ] } [ 'd' ])) (some (Expression.Identifier { type := .IDENT, literal := [ 'e' ] } [ 'e' ])))))) { l := { input := strChars "a + b * c + d / e - f", position := 21, readPosition := 22, ch := nul }, curToken := { type := .MINUS, literal := [ '-' ] }, peekToken := { type := .IDENT, literal := [ 'f' ] }, errors := [] } { l := { input := strChars "a + b * c + d / e - f", position := 22, readPosition := 23, ch := nul }, curToken := { type := .IDENT, literal := [ 'f' ] }, peekToken := { type := .EOF, literal := [] }, errors := [] }
      (some (Expression.Identifier { type := .IDENT, literal := [ 'f' ] } [ 'f' ])) { l := { input := strChars "a + b * c + d / e - f", position := 22, readPosition := 23, ch := nul }, curToken := { type := .IDENT, literal := [ 'f' ] }, peekToken := { type := .EOF, literal := [] }, errors := [] } rfl h18]
  have h20 : exprRun 20 (.loop 1 (some (Expression.InfixExpression { type := .MINUS, literal := [ '-' ] } [ '-' ] (some (Expression.InfixExpression { type := .PLUS, literal := [ '+' ] } [ '+' ] (some (Expression.InfixExpression { type := .PLUS, literal := [ '+' ] } [ '+' ] (some (Expression.Identifier { type := .IDENT, literal := [ 'a' ] } [ 'a' ])) (some (Expression.InfixExpression { type := .ASTERISK, literal := [ '*' ] } [ '*' ] (some (Expression.Identifier { type := .IDENT, literal := [ 'b' ] } [ 'b' ])) (some (Expression.Identifier { type := .IDENT, literal := [ 'c' ] } [ 'c' ])))))) (some (Expression.InfixExpression { type := .SLASH, literal := [ '/' ] } [ '/' ] (some (Expression.Identifier { type := .IDENT, literal := [ 'd' ] } [ 'd' ])) (some (Expression.Identifier { type := .IDENT, literal := [ 'e' ] } [ 'e' ])))))) (some (Expression.Identifier { type := .IDENT, literal := [ 'f' ] } [ 'f' ]))))) { l := { input := strChars "a + b * c + d / e - f", position := 22, readPosition := 23, ch := nul }, curToken := { type := .IDENT, literal := [ 'f' ] }, peekToken := { type := .EOF, literal := [] }, errors := [] } = .ok (some (Expression.InfixExpression { type := .MINUS, literal := [ '-' ] } [ '-' ] (some (Expression.InfixExpression { type := .PLUS, literal := [ '+' ] } [ '+' ] (some (Expression.InfixExpression { type := .PLUS, literal := [ '+' ] } [ '+' ] (some (Expression.Identifier { type := .IDENT, literal := [ 'a' ] } [ 'a' ])) (some (Expression.InfixExpression { type := .ASTERISK, literal := [ '*' ] } [ '*' ] (some (Expression.Identifier { type := .IDENT, literal := [ 'b' ] } [ 'b' ])) (some (Expression.Identifier { type := .IDENT, literal := [ 'c' ] } [ 'c' ])))))) (some (Expression.InfixExpression { type := .SLASH, literal := [ '/' ] } [ '/' ] (some (Expression.Identifier { type := .IDENT, literal := [ 'd' ] } [ 'd' ])) (some (Expression.Identifier { type := .IDENT, literal := [ 'e' ] } [ 'e' ])))))) (some (Expression.Identifier { type := .IDENT, literal := [ 'f' ] } [ 'f' ]))), { l := { input := strChars "a + b * c + d / e - f", position := 22, readPosition := 23, ch := nul }, curToken := { type := .IDENT, literal := [ 'f' ] }, peekToken := { type := .EOF, literal := [] }, errors := [] }) := by
    show exprStep (exprRun 19) (.loop 1 (some (Expression.InfixExpression { type := .MINUS, literal := [ '-' ] } [ '-' ] (some (Expression.InfixExpression { type := .PLUS, literal := [ '+' ] } [ '+' ] (some (Expression.InfixExpression { type := .PLUS, literal := [ '+' ] } [ '+' ] (some (Expression.Identifier { type := .IDENT, literal := [ 'a' ] } [ 'a' ])) (some (Expression.InfixExpression { type := .ASTERISK, literal := [ '*' ] } [ '*' ] (some (Expression.Identifier { type := .IDENT, literal := [ 'b' ] } [ 'b' ])) (some (Expression.Identifier { type := .IDENT, literal := [ 'c' ] } [ 'c' ])))))) (some (Expression.InfixExpression { type := .SLASH, literal := [ '/' ] } [ '/' ] (some (Expression.Identifier { type := .IDENT, literal := [ 'd' ] } [ 'd' ])) (some (Expression.Identifier { type := .IDENT, literal := [ 'e' ] } [ 'e' ])))))) (some (Expression.Identifier { type := .IDENT, literal := [ 'f' ] } [ 'f' ]))))) { l := { input := strChars "a + b * c + d / e - f", position := 22, readPosition := 23, ch := nul }, curToken := { type := .IDENT, literal := [ 'f' ] }, peekToken := { type := .EOF, literal := [] }, errors := [] } = .ok (some (Expression.InfixExpression { type := .MINUS, literal := [ '-' ] } [ '-' ] (some (Expression.InfixExpression { type := .PLUS, literal := [ '+' ] } [ '+' ] (some (Expression.InfixExpression { type := .PLUS, literal := [ '+' ] } [ '+' ] (some (Expression.Identifier { type := .IDENT, literal := [ 'a' ] } [ 'a' ])) (some (Expression.InfixExpression { type := .ASTERISK, literal := [ '*' ] } [ '*' ] (some (Expression.Identifier { type := .IDENT, literal := [ 'b' ] } [ 'b' ])) (some (Expression.Identifier { type := .IDENT, literal := [ 'c' ] } [ 'c' ])))))) (some (Expression.InfixExpression { type := .SLASH, literal := [ '/' ] } [ '/' ] (some (Expression.Identifier { type := .IDENT, literal := [ 'd' ] } [ 'd' ])) (some (Expression.Identifier { type := .IDENT, literal := [ 'e' ] } [ 'e' ])))))) (some (Expression.Identifier { type := .IDENT, literal := [ 'f' ] } [ 'f' ]))), { l := { input := strChars "a + b * c + d / e - f", position := 22, readPosition := 23, ch := nul }, curToken := { type := .IDENT, literal := [ 'f' ] }, peekToken := { type := .EOF, literal := [] }, errors := [] })
    exact exprStep_loop_exit (exprRun 19) 1 (some (Expression.InfixExpression { type := .MINUS, literal := [ '-' ] } [ '-' ] (some (Expression.InfixExpression { type := .PLUS, literal := [ '+' ] } [ '+' ] (some (Expression.InfixExpression { type := .PLUS, literal := [ '+' ] } [ '+' ] (some (Expression.Identifier { type := .IDENT, literal := [ 'a' ] } [ 'a' ])) (some (Expression.InfixExpression { type := .ASTERISK, literal := [ '*' ] } [ '*' ] (some (Expression.Identifier { type := .IDENT, literal := [ 'b' ] } [ 'b' ])) (some (Expression.Identifier { type := .IDENT, literal := [ 'c' ] } [ 'c' ])))))) (some (Expression.InfixExpression { type := .SLASH, literal := [ '/' ] } [ '/' ] (some (Expression.Identifier { type := .IDENT, literal := [ 'd' ] } [ 'd' ])) (some (Expression.Identifier { type := .IDENT, literal := [ 'e' ] } [ 'e' ])))))) (some (Expression.Identifier { type := .IDENT, literal := [ 'f' ] } [ 'f' ])))) { l := { input := strChars "a + b * c + d / e - f", position := 22, readPosition := 23, ch := nul }, curToken := { type := .IDENT, literal := [ 'f' ] }, peekToken := { type := .EOF, literal := [] }, errors := [] } (by decide)
  have h21 : exprRun 21 (.loop 1 (some (Expression.InfixExpression { type := .PLUS, literal := [ '+' ] } [ '+' ] (some (Expression.InfixExpression { type := .PLUS, literal := [ '+' ] } [ '+' ] (some (Expression.Identifier { type := .IDENT, literal := [ 'a' ] } [ 'a' ])) (some (Expression.InfixExpression { type := .ASTERISK, literal := [ '*' ] } [ '*' ] (some (Expression.Identifier { type := .IDENT, literal := [ 'b' ] } [ 'b' ])) (some (Expression.Identifier { type := .IDENT, literal := [ 'c' ] } [ 'c' ])))))) (some (Expression.InfixExpression { type := .SLASH, literal := [ '/' ] } [ '/' ] (some (Expression.Identifier { type := .IDENT, literal := [ 'd' ] } [ 'd' ])) (some (Expression.Identifier { type := .IDENT, literal := [ 'e' ] } [ 'e' ]))))))) { l := { input := strChars "a + b * c + d / e - f", position := 19, readPosition := 20, ch := ' ' }, curToken := { type := .IDENT, literal := [ 'e' ] }, peekToken := { type := .MINUS, literal := [ '-' ] }, errors := [] } = exprRun 20 (.loop 1 (some (Expression.InfixExpression { type := .MINUS, literal := [ '-' ] } [ '-' ] (some (Expression.InfixExpression { type := .PLUS, literal := [ '+' ] } [ '+' ] (some (Expression.InfixExpression { type := .PLUS, literal := [ '+' ] } [ '+' ] (some (Expression.Identifier { type := .IDENT, literal := [ 'a' ] } [ 'a' ])) (some (Expression.InfixExpression { type := .ASTERISK, literal := [ '*' ] } [ '*' ] (some (Expression.Identifier { type := .IDENT, literal := [ 'b' ] } [ 'b' ])) (some (Expression.Identifier { type := .IDENT, literal := [ 'c' ] } [ 'c' ])))))) (some (Expression.InfixExpression { type := .SLASH, literal := [ '/' ] } [ '/' ] (some (Expression.Identifier { type := .IDENT, literal := [ 'd' ] } [ 'd' ])) (some (Expression.Identifier { type := .IDENT, literal := [ 'e' ] } [ 'e' ])))))) (some (Expression.Identifier { type := .IDENT, literal := [ 'f' ] } [ 'f' ]))))) { l := { input := strChars "a + b * c + d / e - f", position := 22, readPosition := 23, ch := nul }, curToken := { type := .IDENT, literal := [ 'f' ] }, peekToken := { type := .EOF, literal := [] }, errors := [] } := by
    show exprStep (exprRun 20) (.loop 1 (some (Expression.InfixExpression { type := .PLUS, literal := [ '+' ] } [ '+' ] (some (Expression.InfixExpression { type := .PLUS, literal := [ '+' ] } [ '+' ] (some (Expression.Identifier { type := .IDENT, literal := [ 'a' ] } [ 'a' ])) (some (Expression.InfixExpression { type := .ASTERISK, literal := [ '*' ] } [ '*' ] (some (Expression.Identifier { type := .IDENT, literal := [ 'b' ] } [ 'b' ])) (some (Expression.Identifier { type := .IDENT, literal := [ 'c' ] } [ 'c' ])))))) (some (Expression.InfixExpression { type := .SLASH, literal := [ '/' ] } [ '/' ] (some (Expression.Identifier { type := .IDENT, literal := [ 'd' ] } [ 'd' ])) (some (Expression.Identifier { type := .IDENT, literal := [ 'e' ] } [ 'e' ]))))))) { l := { input := strChars "a + b * c + d / e - f", position := 19, readPosition := 20, ch := ' ' }, curToken := { type := .IDENT, literal := [ 'e' ] }, peekToken := { type := .MINUS, literal := [ '-' ] }, errors := [] } = exprRun 20 (.loop 1 (some (Expression.InfixExpression { type := .MINUS, literal := [ '-' ] } [ '-' ] (some (Expression.InfixExpression { type := .PLUS, literal := [ '+' ] } [ '+' ] (some (Expression.InfixExpression { type := .PLUS, literal := [ '+' ] } [ '+' ] (some (Expression.Identifier { type := .IDENT, literal := [ 'a' ] } [ 'a' ])) (some (Expression.InfixExpression { type := .ASTERISK, literal := [ '*' ] } [ '*' ] (some (Expression.Identifier { type := .IDENT, literal := [ 'b' ] } [ 'b' ])) (some (Expression.Identifier { type := .IDENT, literal := [ 'c' ] } [ 'c' ])))))) (some (Expression.InfixExpression { type := .SLASH, literal := [ '/' ] } [ '/' ] (some (Expression.Identifier { type := .IDENT, literal := [ 'd' ] } [ 'd' ])) (some (Expression.Identifier { type := .IDENT, literal := [ 'e' ] } [ 'e' ])))))) (some (Expression.Identifier { type := .IDENT, literal := [ 'f' ] } [ 'f' ]))))) { l := { input := strChars "a + b * c + d / e - f", position := 22, readPosition := 23, ch := nul }, curToken := { type := .IDENT, literal := [ 'f' ] }, peekToken := { type := .EOF, literal := [] }, errors := [] }
    exact exprStep_loop_iterate (exprRun 20) 1 (some (Expression.InfixExpression { type := .PLUS, literal := [ '+' ] } [ '+' ] (some (Expression.InfixExpression { type := .PLUS, literal := [ '+' ] } [ '+' ] (some (Expression.Identifier { type := .IDENT, literal := [ 'a' ] } [ 'a' ])) (some (Expression.InfixExpression { type := .ASTERISK, literal := [ '*' ] } [ '*' ] (some (Expression.Identifier { type := .IDENT, literal := [ 'b' ] } [ 'b' ])) (some (Expression.Identifier { type := .IDENT, literal := [ 'c' ] } [ 'c' ])))))) (some (Expression.InfixExpression { type := .SLASH, literal := [ '/' ] } [ '/' ] (some (Expression.Identifier { type := .IDENT, literal := [ 'd' ] } [ 'd' ])) (some (Expression.Identifier { type := .IDENT, literal := [ 'e' ] } [ 'e' ])))))) { l := { input := strChars "a + b * c + d / e - f", position := 19, readPosition := 20, ch := ' ' }, curToken := { type := .IDENT, literal := [ 'e' ] }, peekToken := { type := .MINUS, literal := [ '-' ] }, errors := [] } { l := { input := strChars "a + b * c + d / e - f", position := 21, readPosition := 22, ch := nul }, curToken := { type := .MINUS, literal := [ '-' ] }, peekToken := { type := .IDENT, literal := [ 'f' ] }, errors := [] }
      (some (Expression.InfixExpression { type := .MINUS, literal := [ '-' ] } [ '-' ] (some (Expression.InfixExpression { type := .PLUS, literal := [ '+' ] } [ '+' ] (some (Expression.InfixExpression { type := .PLUS, literal := [ '+' ] } [ '+' ] (some (Expression.Identifier { type := .IDENT, literal := [ 'a' ] } [ 'a' ])) (some (Expression.InfixExpression { type := .ASTERISK, literal := [ '*' ] } [ '*' ] (some (Expression.Identifier { type := .IDENT, literal := [ 'b' ] } [ 'b' ])) (some (Expression.Identifier { type := .IDENT, literal := [ 'c' ] } [ 'c' ])))))) (some (Expression.InfixExpression { type := .SLASH, literal := [ '/' ] } [ '/' ] (some (Expression.Identifier { type := .IDENT, literal := [ 'd' ] } [ 'd' ])) (some (Expression.Identifier { type := .IDENT, literal := [ 'e' ] } [ 'e' ])))))) (some (Expression.Identifier { type := .IDENT, literal := [ 'f' ] } [ 'f' ])))) { l := { input := strChars "a + b * c + d / e - f", position := 22, readPosition := 23, ch := nul }, curToken := { type := .IDENT, literal := [ 'f' ] }, peekToken := { type := .EOF, literal := [] }, errors := [] } (by decide) rfl rfl h19
  have h22 : exprRun 21 (.loop 1 (some (Expression.InfixExpression { type := .PLUS, literal := [ '+' ] } [ '+' ] (some (Expression.InfixExpression { type := .PLUS, literal := [ '+' ] } [ '+' ] (some (Expression.Identifier { type := .IDENT, literal := [ 'a' ] } [ 'a' ])) (some (Expression.InfixExpression { type := .ASTERISK, literal := [ '*' ] } [ '*' ] (some (Expression.Identifier { type := .IDENT, literal := [ 'b' ] } [ 'b' ])) (some (Expression.Identifier { type := .IDENT, literal := [ 'c' ] } [ 'c' ])))))) (some (Expression.InfixExpression { type := .SLASH, literal := [ '/' ] } [ '/' ] (some (Expression.Identifier { type := .IDENT, literal := [ 'd' ] } [ 'd' ])) (some (Expression.Identifier { type := .IDENT, literal := [ 'e' ] } [ 'e' ]))))))) { l := { input := strChars "a + b * c + d / e - f", position := 19, readPosition := 20, ch := ' ' }, curToken := { type := .IDENT, literal := [ 'e' ] }, peekToken := { type := .MINUS, literal := [ '-' ] }, errors := [] } = .ok (some (Expression.InfixExpression { type := .MINUS, literal := [ '-' ] } [ '-' ] (some (Expression.InfixExpression { type := .PLUS, literal := [ '+' ] } [ '+' ] (some (Expression.InfixExpression { type := .PLUS, literal := [ '+' ] } [ '+' ] (some (Expression.Identifier { type := .IDENT, literal := [ 'a' ] } [ 'a' ])) (some (Expression.InfixExpression { type := .ASTERISK, literal := [ '*' ] } [ '*' ] (some (Expression.Identifier { type := .IDENT, literal := [ 'b' ] } [ 'b' ])) (some (Expression.Identifier { type := .IDENT, literal := [ 'c' ] } [ 'c' ])))))) (some (Expression.InfixExpression { type := .SLASH, literal := [ '/' ] } [ '/' ] (some (Expression.Identifier { type := .IDENT, literal := [ 'd' ] } [ 'd' ])) (some (Expression.Identifier { type := .IDENT, literal := [ 'e' ] } [ 'e' ])))))) (some (Expression.Identifier { type := .IDENT, literal := [ 'f' ] } [ 'f' ]))), { l := { input := strChars "a + b * c + d / e - f", position := 22, readPosition := 23, ch := nul }, curToken := { type := .IDENT, literal := [ 'f' ] }, peekToken := { type := .EOF, literal := [] }, errors := [] }) := h21.trans h20
  have h23 : exprRun 22 (.loop 1 (some (Expression.InfixExpression { type := .PLUS, literal := [ '+' ] } [ '+' ] (some (Expression.Identifier { type := .IDENT, literal := [ 'a' ] } [ 'a' ])) (some (Expression.InfixExpression { type := .ASTERISK, literal := [ '*' ] } [ '*' ] (some (Expression.Identifier { type := .IDENT, literal := [ 'b' ] } [ 'b' ])) (some (Expression.Identifier { type := .IDENT, literal := [ 'c' ] } [ 'c' ]))))))) { l := { input := strChars "a + b * c + d / e - f", position := 11, readPosition := 12, ch := ' ' }, curToken := { type := .IDENT, literal := [ 'c' ] }, peekToken := { type := .PLUS, literal := [ '+' ] }, errors := [] } = exprRun 21 (.loop 1 (some (Expression.InfixExpression { type := .PLUS, literal := [ '+' ] } [ '+' ] (some (Expression.InfixExpression { type := .PLUS, literal := [ '+' ] } [ '+' ] (some (Expression.Identifier { type := .IDENT, literal := [ 'a' ] } [ 'a' ])) (some (Expression.InfixExpression { type := .ASTERISK, literal := [ '*' ] } [ '*' ] (some (Expression.Identifier { type := .IDENT, literal := [ 'b' ] } [ 'b' ])) (some (Expression.Identifier { type := .IDENT, literal := [ 'c' ] } [ 'c' ])))))) (some (Expression.InfixExpression { type := .SLASH, literal := [ '/' ] } [ '/' ] (some (Expression.Identifier { type := .IDENT, literal := [ 'd' ] } [ 'd' ])) (some (Expression.Identifier { type := .IDENT, literal := [ 'e' ] } [ 'e' ]))))))) { l := { input := strChars "a + b * c + d / e - f", position := 19, readPosition := 20, ch := ' ' }, curToken := { type := .IDENT, literal := [ 'e' ] }, peekToken := { type := .MINUS, literal := [ '-' ] }, errors := [] } := by
    show exprStep (exprRun 21) (.loop 1 (some (Expression.InfixExpression { type := .PLUS, literal := [ '+' ] } [ '+' ] (some (Expression.Identifier { type := .IDENT, literal := [ 'a' ] } [ 'a' ])) (some (Expression.InfixExpression { type := .ASTERISK, literal := [ '*' ] } [ '*' ] (some (Expression.Identifier { type := .IDENT, literal := [ 'b' ] } [ 'b' ])) (some (Expression.Identifier { type := .IDENT, literal := [ 'c' ] } [ 'c' ]))))))) { l := { input := strChars "a + b * c + d / e - f", position := 11, readPosition := 12, ch := ' ' }, curToken := { type := .IDENT, literal := [ 'c' ] }, peekToken := { type := .PLUS, literal := [ '+' ] }, errors := [] } = exprRun 21 (.loop 1 (some (Expression.InfixExpression { type := .PLUS, literal := [ '+' ] } [ '+' ] (some (Expression.InfixExpression { type := .PLUS, literal := [ '+' ] } [ '+' ] (some (Expression.Identifier { type := .IDENT, literal := [ 'a' ] } [ 'a' ])) (some (Expression.InfixExpression { type := .ASTERISK, literal := [ '*' ] } [ '*' ] (some (Expression.Identifier { type := .IDENT, literal := [ 'b' ] } [ 'b' ])) (some (Expression.Identifier { type := .IDENT, literal := [ 'c' ] } [ 'c' ])))))) (some (Expression.InfixExpression { type := .SLASH, literal := [ '/' ] } [ '/' ] (some (Expression.Identifier { type := .IDENT, literal := [ 'd' ] } [ 'd' ])) (some (Expression.Identifier { type := .IDENT, literal := [ 'e' ] } [ 'e' ]))))))) { l := { input := strChars "a + b * c + d / e - f", position := 19, readPosition := 20, ch := ' ' }, curToken := { type := .IDENT, literal := [ 'e' ] }, peekToken := { type := .MINUS, literal := [ '-' ] }, errors := [] }
    exact exprStep_loop_iterate (exprRun 21) 1 (some (Expression.InfixExpression { type := .PLUS, literal := [ '+' ] } [ '+' ] (some (Expression.Identifier { type := .IDENT, literal := [ 'a' ] } [ 'a' ])) (some (Expression.InfixExpression { type := .ASTERISK, literal := [ '*' ] } [ '*' ] (some (Expression.Identifier { type := .IDENT, literal := [ 'b' ] } [ 'b' ])) (some (Expression.Identifier { type := .IDENT, literal := [ 'c' ] } [ 'c' ])))))) { l := { input := strChars "a + b * c + d / e - f", position := 11, readPosition := 12, ch := ' ' }, curToken := { type := .IDENT, literal := [ 'c' ] }, peekToken := { type := .PLUS, literal := [ '+' ] }, errors := [] } { l := { input := strChars "a + b * c + d / e - f", position := 13, readPosition := 14, ch := ' ' }, curToken := { type := .PLUS, literal := [ '+' ] }, peekToken := { type := .IDENT, literal := [ 'd' ] }, errors := [] }
      (some (Expression.InfixExpression { type := .PLUS, literal := [ '+' ] } [ '+' ] (some (Expression.InfixExpression { type := .PLUS, literal := [ '+' ] } [ '+' ] (some (Expression.Identifier { type := .IDENT, literal := [ 'a' ] } [ 'a' ])) (some (Expression.InfixExpression { type := .ASTERISK, literal := [ '*' ] } [ '*' ] (some (Expression.Identifier { type := .IDENT, literal := [ 'b' ] } [ 'b' ])) (some (Expression.Identifier { type := .IDENT, literal := [ 'c' ] } [ 'c' ])))))) (some (Expression.InfixExpression { type := .SLASH, literal := [ '/' ] } [ '/' ] (some (Expression.Identifier { type := .IDENT, literal := [ 'd' ] } [ 'd' ])) (some (Expression.Identifier { type := .IDENT, literal := [ 'e' ] } [ 'e' ])))))) { l := { input := strChars "a + b * c + d / e - f", position := 19, readPosition := 20, ch := ' ' }, curToken := { type := .IDENT, literal := [ 'e' ] }, peekToken := { type := .MINUS, literal := [ '-' ] }, errors := [] } (by decide) rfl rfl h16
  have h24 : exprRun 22 (.loop 1 (some (Expression.InfixExpression { type := .PLUS, literal := [ '+' ] } [ '+' ] (some (Expression.Identifier { type := .IDENT, literal := [ 'a' ] } [ 'a' ])) (some (Expression.InfixExpression { type := .ASTERISK, literal := [ '*' ] } [ '*' ] (some (Expression.Identifier { type := .IDENT, literal := [ 'b' ] } [ 'b' ])) (some (Expression.Identifier { type := .IDENT, literal := [ 'c' ] } [ 'c' ]))))))) { l := { input := strChars "a + b * c + d / e - f", position := 11, readPosition := 12, ch := ' ' }, curToken := { type := .IDENT, literal := [ 'c' ] }, peekToken := { type := .PLUS, literal := [ '+' ] }, errors := [] } = .ok (some (Expression.InfixExpression { type := .MINUS, literal := [ '-' ] } [ '-' ] (some (Expression.InfixExpression { type := .PLUS, literal := [ '+' ] } [ '+' ] (some (Expression.InfixExpression { type := .PLUS, literal := [ '+' ] } [ '+' ] (some (Expression.Identifier { type := .IDENT, literal := [ 'a' ] } [ 'a' ])) (some (Expression.InfixExpression { type := .ASTERISK, literal := [ '*' ] } [ '*' ] (some (Expression.Identifier { type := .IDENT, literal := [ 'b' ] } [ 'b' ])) (some (Expression.Identifier { type := .IDENT, literal := [ 'c' ] } [ 'c' ])))))) (some (Expression.InfixExpression { type := .SLASH, literal := [ '/' ] } [ '/' ] (some (Expression.Identifier { type := .IDENT, literal := [ 'd' ] } [ 'd' ])) (some (Expression.Identifier { type := .IDENT, literal := [ 'e' ] } [ 'e' ])))))) (some (Expression.Identifier { type := .IDENT, literal := [ 'f' ] } [ 'f' ]))), { l := { input := strChars "a + b * c + d / e - f", position := 22, readPosition := 23, ch := nul }, curToken := { type := .IDENT, literal := [ 'f' ] }, peekToken := { type := .EOF, literal := [] }, errors := [] }) := h23.trans h22
  have h25 : exprRun 23 (.loop 1 (some (Expression.Identifier { type := .IDENT, literal := [ 'a' ] } [ 'a' ]))) { l := { input := strChars "a + b * c + d / e - f", position := 3, readPosition := 4, ch := ' ' }, curToken := { type := .IDENT, literal := [ 'a' ] }, peekToken := { type := .PLUS, literal := [ '+' ] }, errors := [] } = exprRun 22 (.loop 1 (some (Expression.InfixExpression { type := .PLUS, literal := [ '+' ] } [ '+' ] (some (Expression.Identifier { type := .IDENT, literal := [ 'a' ] } [ 'a' ])) (some (Expression.InfixExpression { type := .ASTERISK, literal := [ '*' ] } [ '*' ] (some (Expression.Identifier { type := .IDENT, literal := [ 'b' ] } [ 'b' ])) (some (Expression.Identifier { type := .IDENT, literal := [ 'c' ] } [ 'c' ]))))))) { l := { input := strChars "a + b * c + d / e - f", position := 11, readPosition := 12, ch := ' ' }, curToken := { type := .IDENT, literal := [ 'c' ] }, peekToken := { type := .PLUS, literal := [ '+' ] }, errors := [] } := by
    show exprStep (exprRun 22) (.loop 1 (some (Expression.Identifier { type := .IDENT, literal := [ 'a' ] } [ 'a' ]))) { l := { input := strChars "a + b * c + d / e - f", position := 3, readPosition := 4, ch := ' ' }, curToken := { type := .IDENT, literal := [ 'a' ] }, peekToken := { type := .PLUS, literal := [ '+' ] }, errors := [] } = exprRun 22 (.loop 1 (some (Expression.InfixExpression { type := .PLUS, literal := [ '+' ] } [ '+' ] (some (Expression.Identifier { type := .IDENT, literal := [ 'a' ] } [ 'a' ])) (some (Expression.InfixExpression { type := .ASTERISK, literal := [ '*' ] } [ '*' ] (some (Expression.Identifier { type := .IDENT, literal := [ 'b' ] } [ 'b' ])) (some (Expression.Identifier { type := .IDENT, literal := [ 'c' ] } [ 'c' ]))))))) { l := { input := strChars "a + b * c + d / e - f", position := 11, readPosition := 12, ch := ' ' }, curToken := { type := .IDENT, literal := [ 'c' ] }, peekToken := { type := .PLUS, literal := [ '+' ] }, errors := [] }
    exact exprStep_loop_iterate (exprRun 22) 1 (some (Expression.Identifier { type := .IDENT, literal := [ 'a' ] } [ 'a' ])) { l := { input := strChars "a + b * c + d / e - f", position := 3, readPosition := 4, ch := ' ' }, curToken := { type := .IDENT, literal := [ 'a' ] }, peekToken := { type := .PLUS, literal := [ '+' ] }, errors := [] } { l := { input := strChars "a + b * c + d / e - f", position := 5, readPosition := 6, ch := ' ' }, curToken := { type := .PLUS, literal := [ '+' ] }, peekToken := { type := .IDENT, literal := [ 'b' ] }, errors := [] }
      (some (Expression.InfixExpression { type := .PLUS, literal := [ '+' ] } [ '+' ] (some (Expression.Identifier { type := .IDENT, literal := [ 'a' ] } [ 'a' ])) (some (Expression.InfixExpression { type := .ASTERISK, literal := [ '*' ] } [ '*' ] (some (Expression.Identifier { type := .IDENT, literal := [ 'b' ] } [ 'b' ])) (some (Expression.Identifier { type := .IDENT, literal := [ 'c' ] } [ 'c' ])))))) { l := { input := strChars "a + b * c + d / e - f", position := 11, readPosition := 12, ch := ' ' }, curToken := { type := .IDENT, literal := [ 'c' ] }, peekToken := { type := .PLUS, literal := [ '+' ] }, errors := [] } (by decide) rfl rfl h8
  have h26 : exprRun 23 (.loop 1 (some (Expression.Identifier { type := .IDENT, literal := [ 'a' ] } [ 'a' ]))) { l := { input := strChars "a + b * c + d / e - f", position := 3, readPosition := 4, ch := ' ' }, curToken := { type := .IDENT, literal := [ 'a' ] }, peekToken := { type := .PLUS, literal := [ '+' ] }, errors := [] } = .ok (some (Expression.InfixExpression { type := .MINUS, literal := [ '-' ] } [ '-' ] (some (Expression.InfixExpression { type := .PLUS, literal := [ '+' ] } [ '+' ] (some (Expression.InfixExpression { type := .PLUS, literal := [ '+' ] } [ '+' ] (some (Expression.Identifier { type := .IDENT, literal := [ 'a' ] } [ 'a' ])) (some (Expression.InfixExpression { type := .ASTERISK, literal := [ '*' ] } [ '*' ] (some (Expression.Identifier { type := .IDENT, literal := [ 'b' ] } [ 'b' ])) (some (Expression.Identifier { type := .IDENT, literal := [ 'c' ] } [ 'c' ])))))) (some (Expression.InfixExpression { type := .SLASH, literal := [ '/' ] } [ '/' ] (some (Expression.Identifier { type := .IDENT, literal := [ 'd' ] } [ 'd' ])) (some (Expression.Identifier { type := .IDENT, literal := [ 'e' ] } [ 'e' ])))))) (some (Expression.Identifier { type := .IDENT, literal := [ 'f' ] } [ 'f' ]))), { l := { input := strChars "a + b * c + d / e - f", position := 22, readPosition := 23, ch := nul }, curToken := { type := .IDENT, literal := [ 'f' ] }, peekToken := { type := .EOF, literal := [] }, errors := [] }) := h25.trans h24
  have h27 : exprRun 24 (.expr 1) { l := { input := strChars "a + b * c + d / e - f", position := 3, readPosition := 4, ch := ' ' }, curToken := { type := .IDENT, literal := [ 'a' ] }, peekToken := { type := .PLUS, literal := [ '+' ] }, errors := [] } = .ok (some (Expression.InfixExpression { type := .MINUS, literal := [ '-' ] } [ '-' ] (some (Expression.InfixExpression { type := .PLUS, literal := [ '+' ] } [ '+' ] (some (Expression.InfixExpression { type := .PLUS, literal := [ '+' ] } [ '+' ] (some (Expression.Identifier { type := .IDENT, literal := [ 'a' ] } [ 'a' ])) (some (Expression.InfixExpression { type := .ASTERISK, literal := [ '*' ] } [ '*' ] (some (Expression.Identifier { type := .IDENT, literal := [ 'b' ] } [ 'b' ])) (some (Expression.Identifier { type := .IDENT, literal := [ 'c' ] } [ 'c' ])))))) (some (Expression.InfixExpression { type := .SLASH, literal := [ '/' ] } [ '/' ] (some (Expression.Identifier { type := .IDENT, literal := [ 'd' ] } [ 'd' ])) (some (Expression.Identifier { type := .IDENT, literal := [ 'e' ] } [ 'e' ])))))) (some (Expression.Identifier { type := .IDENT, literal := [ 'f' ] } [ 'f' ]))), { l := { input := strChars "a + b * c + d / e - f", position := 22, readPosition := 23, ch := nul }, curToken := { type := .IDENT, literal := [ 'f' ] }, peekToken := { type := .EOF, literal := [] }, errors := [] }) := by
    show exprStep (exprRun 23) (.expr 1) { l := { input := strChars "a + b * c + d / e - f", position := 3, readPosition := 4, ch := ' ' }, curToken := { type := .IDENT, literal := [ 'a' ] }, peekToken := { type := .PLUS, literal := [ '+' ] }, errors := [] } = .ok (some (Expression.InfixExpression { type := .MINUS, literal := [ '-' ] } [ '-' ] (some (Expression.InfixExpression { type := .PLUS, literal := [ '+' ] } [ '+' ] (some (Expression.InfixExpression { type := .PLUS, literal := [ '+' ] } [ '+' ] (some (Expression.Identifier { type := .IDENT, literal := [ 'a' ] } [ 'a' ])) (some (Expression.InfixExpression { type := .ASTERISK, literal := [ '*' ] } [ '*' ] (some (Expression.Identifier { type := .IDENT, literal := [ 'b' ] } [ 'b' ])) (some (Expression.Identifier { type := .IDENT, literal := [ 'c' ] } [ 'c' ])))))) (some (Expression.InfixExpression { type := .SLASH, literal := [ '/' ] } [ '/' ] (some (Expression.Identifier { type := .IDENT, literal := [ 'd' ] } [ 'd' ])) (some (Expression.Identifier { type := .IDENT, literal := [ 'e' ] } [ 'e' ])))))) (some (Expression.Identifier { type := .IDENT, literal := [ 'f' ] } [ 'f' ]))), { l := { input := strChars "a + b * c + d / e - f", position := 22, readPosition := 23, ch := nul }, curToken := { type := .IDENT, literal := [ 'f' ] }, peekToken := { type := .EOF, literal := [] }, errors := [] })
    rw [exprStep_expr_ident (exprRun 23) 1 { l := { input := strChars "a + b * c + d / e - f", position := 3, readPosition := 4, ch := ' ' }, curToken := { type := .IDENT, literal := [ 'a' ] }, peekToken := { type := .PLUS, literal := [ '+' ] }, errors := [] } rfl]
    exact h26
  exact h27

/-- The full pipeline on the hardest precedence example, assembled from
`hardExprParse` and the statement-loop step lemmas. -/
theorem hardParsedStrings :
    parsedExprStrings 25 hardInput = some [ strChars "(((a + (b * c)) + (d / e)) - f)" ] := by
  have hpe : parseExpression 24 LOWEST hardP0 = .ok (hardTree, hardPend) := hardExprParse
  have hstmt : parseStatement 24 hardP0 = .ok (some hardStmt, hardPend) := by
    show parseExpressionStatement 24 hardP0 = .ok (some hardStmt, hardPend)
    unfold parseExpressionStatement
    rw [hpe]
    rfl
  have hNT : parserNextToken hardPend = .ok hardP2 := rfl
  have hTail : parseProgramLoop 24 hardP2 = .ok ([], hardP2) := parseProgramLoop_eof 24 hardP2 rfl
  have hLoop : parseProgramLoop 25 hardP0 = .ok ([ hardStmt ], hardP2) :=
    parseProgramLoop_step_some 24 hardP0 hardStmt hardPend hardP2 [] hardP2 (by decide) hstmt hNT hTail
  have hPN : parserNew (lexerNew hardInput) = .ok hardP0 := rfl
  have hPI : parseInput 25 hardInput = .ok ({ Statements := [ hardStmt ] }, hardP2) := by
    unfold parseInput
    rw [hPN]
    show ParseProgram 25 hardP0 = .ok ({ Statements := [ hardStmt ] }, hardP2)
    unfold ParseProgram
    rw [hLoop]
  unfold parsedExprStrings
  rw [hPI]
  rfl

set_option maxHeartbeats 1000000 in
/-- C1: the Pratt parser produces left-associative nesting for chains of
equal-precedence operators and precedence-respecting nesting for mixed
operators: all fully-parenthesized reconstructions claimed by the spec hold,
and the binding-power table orders `*`,`/` above `+`,`-` above `<`,`>` above
`==`,`!=`. -/
theorem c1_precedence_and_associativity :
    parsedExprStrings 25 (strChars "a + b + c") = some [ strChars "((a + b) + c)" ]
    ∧ parsedExprStrings 25 (strChars "a + b - c") = some [ strChars "((a + b) - c)" ]
    ∧ parsedExprStrings 25 (strChars "a * b * c") = some [ strChars "((a * b) * c)" ]
    ∧ parsedExprStrings 25 (strChars "-a * b") = some [ strChars "((-a) * b)" ]
    ∧ parsedExprStrings 25 (strChars "a + b * c + d / e - f")
        = some [ strChars "(((a + (b * c)) + (d / e)) - f)" ]
    ∧ parsedExprStrings 25 (strChars "a < b == c") = some [ strChars "((a < b) == c)" ]
    ∧ parsedExprStrings 25 (strChars "a == b < c") = some [ strChars "(a == (b < c))" ]
    ∧ precedences .ASTERISK = some PRODUCT ∧ precedences .SLASH = some PRODUCT
    ∧ precedences .PLUS = some SUM ∧ precedences .MINUS = some SUM
    ∧ precedences .LT = some LESSGREATER ∧ precedences .GT = some LESSGREATER
    ∧ precedences .EQ = some EQUALS ∧ precedences .NOT_EQ = some EQUALS
    ∧ EQUALS < LESSGREATER ∧ LESSGREATER < SUM ∧ SUM < PRODUCT :=
  ⟨rfl, rfl, rfl, rfl, hardParsedStrings, rfl, rfl, rfl, rfl, rfl, rfl, rfl, rfl, rfl, rfl,
    by decide, by decide, by decide⟩

/-- C3: refuted by the code — `peakChar` guards with `position` but indexes
`input[readPosition]`, so scanning `=` or `!` as the final character of the
input reads one byte past the end and panics (here `none`) instead of
returning the one-character token; the two-character forms away from the end
still work. -/
theorem c3_final_operator_peek_panics :
    NextToken (lexerNew (strChars "=")) = none
    ∧ NextToken (lexerNew (strChars "!")) = none
    ∧ (NextToken (lexerNew (strChars "=="))).map Prod.fst
        = some { type := .EQ, literal := strChars "==" }
    ∧ (NextToken (lexerNew (strChars "!="))).map Prod.fst
        = some { type := .NOT_EQ, literal := strChars "!=" } :=
  ⟨rfl, rfl, rfl, rfl⟩

/-- C4: parsing `let x 5;` records exactly one diagnostic, of the structural
form naming the expected assignment kind and the found integer kind, and the
resulting program contains no LetStatement (the sole statement is the
expression statement re-parsed from the `5`). -/
theorem c4_let_missing_assign_diagnostic :
    parseResult 99 (strChars "let x 5;")
      = some ([ Statement.ExpressionStatement { type := .INT, literal := [ '5' ] }
          (some (Expression.IntegerLiteral { type := .INT, literal := [ '5' ] } 5)) ],
        [ expectedMsg .ASSIGN .INT ])
    ∧ expectedMsg .ASSIGN .INT = strChars "expected next token to be =, got INT instead"
    ∧ (parseResult 99 (strChars "let x 5;")).map (fun r => (r.1.filter isLetStmt).length)
        = some 0
    ∧ (parseResult 99 (strChars "let x 5;")).map (fun r => r.2.length) = some 1 :=
  ⟨rfl, rfl, rfl, rfl⟩

/-- C10: after the let-statement shape check fails on `let x 5;`, the
remaining tokens are re-parsed as statements from the very token where the
check failed: the program holds exactly one statement, an
ExpressionStatement wrapping the IntegerLiteral 5. -/
theorem c10_let_failure_resumes_at_failing_token :
    (parseResult 99 (strChars "let x 5;")).map Prod.fst
      = some [ Statement.ExpressionStatement { type := .INT, literal := [ '5' ] }
          (some (Expression.IntegerLiteral { type := .INT, literal := [ '5' ] } 5)) ]
    ∧ (parseResult 99 (strChars "let x 5;")).map (fun r => r.1.length) = some 1 :=
  ⟨rfl, rfl⟩

/-- C5 counterexample: parsing the single-character input `-` makes the
prefix rule's right-hand operand fail (diagnostic recorded), yet the parse
result still holds a PrefixExpression node (with absent right operand) — an
expression node is produced, contradicting the claim that none is. -/
theorem c5_prefix_failure_counterexample :
    parseResult 99 (strChars "-")
      = some ([ Statement.ExpressionStatement { type := .MINUS, literal := [ '-' ] }
          (some (Expression.PrefixExpression { type := .MINUS, literal := [ '-' ] } [ '-' ] none)) ],
        [ noPrefixMsg .EOF ])
    ∧ some (Expression.PrefixExpression { type := .MINUS, literal := [ '-' ] } [ '-' ] none)
        ≠ (none : Option Expression) :=
  ⟨rfl, fun hc => Option.noConfusion hc⟩

/-- C5 amended: every parse failure within the parser is non-fatal and
degrades to "no node plus one recorded diagnostic" — a failed structural
check makes `parseLetStatement` return no node, a missing prefix rule makes
`parseExpression` return no node, a failed literal conversion makes
`parseIntegerLiteral` return no node, each appending exactly one diagnostic;
however a prefix operator whose right-hand operand fails to parse returns a
PrefixExpression node with an absent right operand (the inner diagnostic
still recorded), not an absent node. -/
theorem c5_failure_degrades_amended :
    (∀ (f : Nat) (p : Parser), peekTokenIs p .IDENT = false →
        parseLetStatement f p = .ok (none, peekError p .IDENT))
    ∧ (∀ (f precedence : Nat) (p : Parser), hasPrefixFn p.curToken.type = false →
        parseExpression (f + 1) precedence p
          = .ok (none, noPrefixParseFnError p p.curToken.type))
    ∧ (∀ p : Parser, ParseInt64 p.curToken.literal = none →
        parseIntegerLiteral p
          = (none, { p with errors := p.errors ++ [ couldNotParseMsg p.curToken.literal ] }))
    ∧ (∀ (f : Nat) (p p2 rp : Parser), parserNextToken p = .ok p2 →
        parseExpression f PREFIX p2 = .ok (none, rp) →
        parsePrefixExpression (f + 1) p
          = .ok (some (Expression.PrefixExpression p.curToken p.curToken.literal none), rp)) := by
  refine ⟨?_, ?_, ?_, ?_⟩
  · intro f p hpk
    unfold parseLetStatement
    rw [show expectPeek p .IDENT = .ok (false, peekError p .IDENT) by
      unfold expectPeek; rw [hpk, if_neg (show ¬(false = true) by decide)]]
  · intro f precedence p hpf
    show exprStep (exprRun f) (.expr precedence) p
      = .ok (none, noPrefixParseFnError p p.curToken.type)
    show ((match p.curToken.type with
      | .IDENT => exprRun f (.loop precedence (some (parseIdentifier p))) p
      | .INT =>
        match parseIntegerLiteral p with
        | (leftExp, p2) => exprRun f (.loop precedence leftExp) p2
      | .BANG =>
        match exprRun f .prefixE p with
        | .error e => .error e
        | .ok (leftExp, p2) => exprRun f (.loop precedence leftExp) p2
      | .MINUS =>
        match exprRun f .prefixE p with
        | .error e => .error e
        | .ok (leftExp, p2) => exprRun f (.loop precedence leftExp) p2
      | t => .ok (none, noPrefixParseFnError p t) : Except Fault (Option Expression × Parser))
      = .ok (none, noPrefixParseFnError p p.curToken.type))
    rcases htype : p.curToken.type <;>
      first
        | (rw [htype] at hpf; exact absurd hpf (by decide))
        | rfl
  · intro p hpi
    unfold parseIntegerLiteral
    rw [hpi]
  · intro f p p2 rp h1 h2
    show exprStep (exprRun f) .prefixE p
      = .ok (some (Expression.PrefixExpression p.curToken p.curToken.literal none), rp)
    show ((match parserNextToken p with
      | .error e => .error e
      | .ok p2 =>
        match exprRun f (.expr PREFIX) p2 with
        | .error e => .error e
        | .ok (right, p3) =>
          .ok (some (Expression.PrefixExpression p.curToken p.curToken.literal right), p3)
      : Except Fault (Option Expression × Parser))
      = .ok (some (Expression.PrefixExpression p.curToken p.curToken.literal none), rp))
    rw [h1]
    show ((match exprRun f (.expr PREFIX) p2 with
      | .error e => .error e
      | .ok (right, p3) =>
        .ok (some (Expression.PrefixExpression p.curToken p.curToken.literal right), p3)
      : Except Fault (Option Expression × Parser))
      = .ok (some (Expression.PrefixExpression p.curToken p.curToken.literal none), rp))
    replace h2 : exprRun f (.expr PREFIX) p2 = .ok (none, rp) := h2
    rw [h2]

/-- C5 witness: the amended failure semantics evaluated at concrete states —
a `let` whose peek is an integer, an expression starting at a semicolon, an
out-of-range integer literal, and a `-` followed by end-of-input. -/
theorem c5_failure_degrades_witness :
    parseLetStatement 5 (mkParser { type := .LET, literal := strChars "let" }
        { type := .INT, literal := [ '5' ] })
      = .ok (none, peekError (mkParser { type := .LET, literal := strChars "let" }
        { type := .INT, literal := [ '5' ] }) .IDENT)
    ∧ parseExpression (5 + 1) LOWEST (mkParser { type := .SEMICOLON, literal := [ ';' ] } eofTok)
      = .ok (none, noPrefixParseFnError
          (mkParser { type := .SEMICOLON, literal := [ ';' ] } eofTok) .SEMICOLON)
    ∧ parseIntegerLiteral (mkParser { type := .INT, literal := strChars "9223372036854775808" } eofTok)
      = (none, { mkParser { type := .INT, literal := strChars "9223372036854775808" } eofTok with
          errors := [ couldNotParseMsg (strChars "9223372036854775808") ] })
    ∧ parsePrefixExpression (5 + 1) (mkParser { type := .MINUS, literal := [ '-' ] } eofTok)
      = .ok (some (Expression.PrefixExpression { type := .MINUS, literal := [ '-' ] } [ '-' ] none),
          noPrefixParseFnError wMinus1 .EOF) :=
  ⟨c5_failure_degrades_amended.1 5 _ rfl,
   c5_failure_degrades_amended.2.1 5 LOWEST _ rfl,
   c5_failure_degrades_amended.2.2.1 _ rfl,
   c5_failure_degrades_amended.2.2.2 5 _ wMinus1 (noPrefixParseFnError wMinus1 .EOF) rfl rfl⟩

/-- C8: a literal that `strconv.ParseInt` cannot convert to a signed 64-bit
integer (such as a digit run one past the int64 maximum) yields exactly one
diagnostic naming the literal, no IntegerLiteral node, and the parse
continues with the following statements; the boundary value still converts. -/
theorem c8_integer_conversion_failure :
    (∀ p : Parser, ParseInt64 p.curToken.literal = none →
        parseIntegerLiteral p
          = (none, { p with errors := p.errors ++ [ couldNotParseMsg p.curToken.literal ] }))
    ∧ ParseInt64 (strChars "9223372036854775808") = none
    ∧ ParseInt64 (strChars "9223372036854775807") = some 9223372036854775807
    ∧ parseResult 99 (strChars "9223372036854775808; 7;")
        = some ([ Statement.ExpressionStatement
              { type := .INT, literal := strChars "9223372036854775808" } none,
            Statement.ExpressionStatement { type := .INT, literal := [ '7' ] }
              (some (Expression.IntegerLiteral { type := .INT, literal := [ '7' ] } 7)) ],
          [ couldNotParseMsg (strChars "9223372036854775808") ]) := by
  refine ⟨?_, by decide, by decide, rfl⟩
  intro p hpi
  unfold parseIntegerLiteral
  rw [hpi]

/-- C8 witness: the conversion-failure equation evaluated at a concrete
parser whose current literal is `08` (invalid in the legacy octal reading
that base-0 `ParseInt` applies to a leading zero). -/
theorem c8_integer_conversion_failure_witness :
    parseIntegerLiteral (mkParser { type := .INT, literal := strChars "08" } eofTok)
      = (none, { mkParser { type := .INT, literal := strChars "08" } eofTok with
          errors := [ couldNotParseMsg (strChars "08") ] }) :=
  c8_integer_conversion_failure.1 _ rfl

/-- C6: the scanner cursor invariant — `readPosition = position + 1` and
`ch` mirroring `input[position]` (NUL past the end) — holds after
initialization and is preserved by `readChar`, `skipWhitespace`,
`readIdentifier`, `readNumber` and every successful `NextToken`. -/
theorem c6_scanner_cursor_invariant :
    (∀ input : List Char, lexInv (lexerNew input))
    ∧ (∀ l : Lexer, lexInv (readChar l))
    ∧ (∀ l : Lexer, lexInv l → lexInv (skipWhitespace l))
    ∧ (∀ l : Lexer, lexInv l → lexInv (readIdentifier l).2)
    ∧ (∀ l : Lexer, lexInv l → lexInv (readNumber l).2)
    ∧ (∀ (l : Lexer) (t : Token) (l2 : Lexer),
        lexInv l → NextToken l = some (t, l2) → lexInv l2) :=
  ⟨lexerNew_inv, readChar_inv, skipWhitespace_inv, readIdentifier_inv, readNumber_inv,
    NextToken_inv⟩

/-- C6 witness: the invariant at a freshly initialized scanner and at the
state a successful `NextToken` over the input `a` leaves behind. -/
theorem c6_scanner_cursor_invariant_witness :
    lexInv (lexerNew (strChars "let five = 5;"))
    ∧ lexInv { input := [ 'a' ], position := 1, readPosition := 2, ch := nul } :=
  ⟨c6_scanner_cursor_invariant.1 _,
   c6_scanner_cursor_invariant.2.2.2.2.2 (lexerNew [ 'a' ])
     { type := .IDENT, literal := [ 'a' ] }
     { input := [ 'a' ], position := 1, readPosition := 2, ch := nul }
     (c6_scanner_cursor_invariant.1 [ 'a' ]) rfl⟩

/-- C7 counterexample: on an input containing a NUL byte (`"\x00a"`),
`NextToken` returns the end-of-input token while input remains, and the very
next call returns an identifier token — end-of-stream idempotence fails for
such inputs. -/
theorem c7_eof_not_stable_counterexample :
    NextToken (lexerNew [ nul, 'a' ])
      = some (eofTok, { input := [ nul, 'a' ], position := 1, readPosition := 2, ch := 'a' })
    ∧ NextToken { input := [ nul, 'a' ], position := 1, readPosition := 2, ch := 'a' }
        = some ({ type := .IDENT, literal := [ 'a' ] },
          { input := [ nul, 'a' ], position := 2, readPosition := 3, ch := nul })
    ∧ ({ type := .IDENT, literal := [ 'a' ] } : Token) ≠ eofTok :=
  ⟨rfl, rfl, by decide⟩

theorem readIdentGo_input : ∀ f l, (readIdentGo f l).input = l.input
  | 0, l => rfl
  | f + 1, l => by
    show (if isLetter l.ch then readIdentGo f (readChar l) else l).input = l.input
    by_cases h : isLetter l.ch = true
    · rw [if_pos h, readIdentGo_input f (readChar l), readChar_input]
    · rw [if_neg h]

theorem readNumberGo_input : ∀ f l, (readNumberGo f l).input = l.input
  | 0, l => rfl
  | f + 1, l => by
    show (if isDigit l.ch then readNumberGo f (readChar l) else l).input = l.input
    by_cases h : isDigit l.ch = true
    · rw [if_pos h, readNumberGo_input f (readChar l), readChar_input]
    · rw [if_neg h]

theorem NextToken_input (l : Lexer) (t : Token) (l2 : Lexer)
    (h : NextToken l = some (t, l2)) : l2.input = l.input := by
  rcases (nextTokenCore_analysis (skipWhitespace l) t l2 h).1 with h2 | h2 | h2 | h2 <;> subst h2
  · rw [readChar_input, skipWhitespace_input]
  · rw [readChar_input, readChar_input, skipWhitespace_input]
  · show (readIdentGo ((skipWhitespace l).input.length + 3) (skipWhitespace l)).input = l.input
    rw [readIdentGo_input, skipWhitespace_input]
  · show (readNumberGo ((skipWhitespace l).input.length + 3) (skipWhitespace l)).input = l.input
    rw [readNumberGo_input, skipWhitespace_input]

theorem lexInv_ch_nul_past_end (l : Lexer) (hInv : lexInv l) (hNF : nul ∉ l.input)
    (h : l.ch = nul) : l.input.length ≤ l.position := by
  rcases hInv with ⟨_, h2⟩
  by_contra hlt
  push_neg at hlt
  rw [if_pos hlt] at h2
  apply hNF
  have he : l.input.getD l.position nul = nul := by rw [← h2, h]
  rw [List.getD_eq_getElem l.input nul hlt] at he
  rw [← he]
  exact List.getElem_mem hlt

theorem NextToken_eof_atEnd (l : Lexer) (t : Token) (l2 : Lexer)
    (hInv : lexInv l) (hNF : nul ∉ l.input)
    (h : NextToken l = some (t, l2)) (ht : t.type = .EOF) : lexAtEnd l2 := by
  obtain ⟨hch, hl2⟩ := NextToken_eof_cases l t l2 h ht
  have hswInv := skipWhitespace_inv l hInv
  have hpos : (skipWhitespace l).input.length ≤ (skipWhitespace l).position := by
    apply lexInv_ch_nul_past_end _ hswInv _ hch
    rw [skipWhitespace_input]
    exact hNF
  have hrp : (skipWhitespace l).readPosition = (skipWhitespace l).position + 1 := hswInv.1
  subst hl2
  refine ⟨?_, ?_, ?_⟩
  · show (skipWhitespace l).input.length ≤ (skipWhitespace l).readPosition
    omega
  · show (skipWhitespace l).input.length ≤ (skipWhitespace l).readPosition + 1
    omega
  · show (if (skipWhitespace l).readPosition ≥ (skipWhitespace l).input.length then nul
      else (skipWhitespace l).input.getD (skipWhitespace l).readPosition nul) = nul
    rw [if_pos (by omega)]

theorem nthTokenFrom_atEnd : ∀ (k : Nat) (l : Lexer), lexAtEnd l →
    nthTokenFrom l k = some eofTok := by
  intro k
  induction k with
  | zero =>
    intro l h
    show (NextToken l).map Prod.fst = some eofTok
    rw [(NextToken_atEnd l h).1]
    rfl
  | succ k ih =>
    intro l h
    show (match NextToken l with
      | none => none
      | some r => nthTokenFrom r.2 k) = some eofTok
    rw [(NextToken_atEnd l h).1]
    exact ih (readChar l) (readChar_atEnd l h)

theorem nthTokenFrom_eof_stable : ∀ (n : Nat) (l : Lexer), lexInv l → nul ∉ l.input →
    ∀ m, n ≤ m → nthTokenFrom l n = some eofTok → nthTokenFrom l m = some eofTok := by
  intro n
  induction n with
  | zero =>
    intro l hInv hNF m hm h
    have h0 : (NextToken l).map Prod.fst = some eofTok := h
    rcases hNT : NextToken l with _ | ⟨t, l2⟩
    · rw [hNT] at h0
      simp at h0
    · rw [hNT] at h0
      replace h0 : some t = some eofTok := h0
      injection h0 with ht
      have hAtEnd : lexAtEnd l2 := NextToken_eof_atEnd l t l2 hInv hNF hNT (by rw [ht]; rfl)
      rcases m with _ | m
      · exact h
      · show (match NextToken l with
          | none => none
          | some r => nthTokenFrom r.2 m) = some eofTok
        rw [hNT]
        exact nthTokenFrom_atEnd m l2 hAtEnd
  | succ n ih =>
    intro l hInv hNF m hm h
    replace h : (match NextToken l with
      | none => none
      | some r => nthTokenFrom r.2 n) = some eofTok := h
    rcases hNT : NextToken l with _ | ⟨t, l2⟩
    · rw [hNT] at h
      simp at h
    · rw [hNT] at h
      replace h : nthTokenFrom l2 n = some eofTok := h
      rcases m with _ | m
      · omega
      · show (match NextToken l with
          | none => none
          | some r => nthTokenFrom r.2 m) = some eofTok
        rw [hNT]
        exact ih l2 (NextToken_inv l t l2 hInv hNT)
          (by rw [NextToken_input l t l2 hNT]; exact hNF) m (by omega) h

/-- C7 amended: on inputs free of the NUL sentinel byte, once the scanner
has produced the end-of-input token it produces it again on every later
call, without a panic — end-of-stream idempotence.  (The unrestricted claim
is refuted by `c7_eof_not_stable_counterexample`.) -/
theorem c7_eof_stability_amended (input : List Char) (hNF : nul ∉ input)
    (n m : Nat) (hnm : n ≤ m) (h : nthTokenFrom (lexerNew input) n = some eofTok) :
    nthTokenFrom (lexerNew input) m = some eofTok :=
  nthTokenFrom_eof_stable n (lexerNew input) (lexerNew_inv input) hNF m hnm h

/-- C7 amended, witnessed at the empty input: the 0th token is end-of-input
and so is the 2nd. -/
theorem c7_eof_stability_amended_witness :
    (nul ∉ ([] : List Char)) ∧ 0 ≤ 2
    ∧ nthTokenFrom (lexerNew []) 0 = some eofTok
    ∧ nthTokenFrom (lexerNew []) 2 = some eofTok :=
  ⟨by decide, by decide, rfl, c7_eof_stability_amended [] (by decide) 0 2 (by decide) rfl⟩

theorem parseProgramLoop_final_eof : ∀ (f : Nat) (p : Parser) (stmts : List Statement)
    (p2 : Parser), parseProgramLoop f p = .ok (stmts, p2) → curTokenIs p2 .EOF = true := by
  intro f
  induction f with
  | zero =>
    intro p stmts p2 h
    unfold parseProgramLoop at h
    by_cases hE : curTokenIs p .EOF = true
    · rw [if_pos hE] at h
      injection h with h1
      injection h1 with h2 h3
      rw [← h3]
      exact hE
    · rw [if_neg hE] at h
      replace h : (Except.error Fault.outOfFuel : Except Fault (List Statement × Parser))
        = .ok (stmts, p2) := h
      exact Except.noConfusion h
  | succ f ih =>
    intro p stmts p2 h
    unfold parseProgramLoop at h
    by_cases hE : curTokenIs p .EOF = true
    · rw [if_pos hE] at h
      injection h with h1
      injection h1 with h2 h3
      rw [← h3]
      exact hE
    · rw [if_neg hE] at h
      replace h : ((match parseStatement f p with
        | .error e => .error e
        | .ok (stmtOpt, p1) =>
          match parserNextToken p1 with
          | .error e => .error e
          | .ok p2 =>
            match parseProgramLoop f p2 with
            | .error e => .error e
            | .ok (rest, p3) =>
              match stmtOpt with
              | some s => .ok (s :: rest, p3)
              | none => .ok (rest, p3) : Except Fault (List Statement × Parser))
        = .ok (stmts, p2)) := h
      rcases hS : parseStatement f p with e | ⟨so, p1⟩
      · rw [hS] at h
        replace h : (Except.error e : Except Fault (List Statement × Parser))
          = .ok (stmts, p2) := h
        exact Except.noConfusion h
      · rw [hS] at h
        clear hS
        rcases so with _ | s
        · replace h : ((match parserNextToken p1 with
            | .error e => .error e
            | .ok q =>
              match parseProgramLoop f q with
              | .error e => .error e
              | .ok (rest, p3) => .ok (rest, p3) : Except Fault (List Statement × Parser))
            = .ok (stmts, p2)) := h
          rcases hN : parserNextToken p1 with e | q
          · rw [hN] at h
            replace h : (Except.error e : Except Fault (List Statement × Parser))
              = .ok (stmts, p2) := h
            exact Except.noConfusion h
          · rw [hN] at h
            clear hN
            replace h : ((match parseProgramLoop f q with
              | .error e => .error e
              | .ok (rest, p3) => .ok (rest, p3) : Except Fault (List Statement × Parser))
              = .ok (stmts, p2)) := h
            rcases hL : parseProgramLoop f q with e | ⟨rest, p3⟩
            · rw [hL] at h
              replace h : (Except.error e : Except Fault (List Statement × Parser))
                = .ok (stmts, p2) := h
              exact Except.noConfusion h
            · rw [hL] at h
              have hfin := ih q rest p3 hL
              replace h : (Except.ok (rest, p3) : Except Fault (List Statement × Parser))
                = .ok (stmts, p2) := h
              injection h with h1
              injection h1 with h2 h3
              rw [← h3]
              exact hfin
        · replace h : ((match parserNextToken p1 with
            | .error e => .error e
            | .ok q =>
              match parseProgramLoop f q with
              | .error e => .error e
              | .ok (rest, p3) => .ok (s :: rest, p3) : Except Fault (List Statement × Parser))
            = .ok (stmts, p2)) := h
          rcases hN : parserNextToken p1 with e | q
          · rw [hN] at h
            replace h : (Except.error e : Except Fault (List Statement × Parser))
              = .ok (stmts, p2) := h
            exact Except.noConfusion h
          · rw [hN] at h
            clear hN
            replace h : ((match parseProgramLoop f q with
              | .error e => .error e
              | .ok (rest, p3) => .ok (s :: rest, p3) : Except Fault (List Statement × Parser))
              = .ok (stmts, p2)) := h
            rcases hL : parseProgramLoop f q with e | ⟨rest, p3⟩
            · rw [hL] at h
              replace h : (Except.error e : Except Fault (List Statement × Parser))
                = .ok (stmts, p2) := h
              exact Except.noConfusion h
            · rw [hL] at h
              have hfin := ih q rest p3 hL
              replace h : (Except.ok (s :: rest, p3) : Except Fault (List Statement × Parser))
                = .ok (stmts, p2) := h
              injection h with h1
              injection h1 with h2 h3
              rw [← h3]
              exact hfin

/-- C9: the statement-loop contract of `ParseProgram` — (i) at end-of-input
the loop stops with no statements and the state unchanged; (ii) every
successful run ends with the current token at end-of-input; (iii) an
iteration whose statement rule produces no node skips it: the result is
exactly the rest of the run, nothing appended and no diagnostic added by
the loop itself; (iv) an iteration that produces a node prepends it in
input order. -/
theorem c9_parse_program_loop_contract :
    (∀ (f : Nat) (p : Parser), curTokenIs p .EOF = true →
        parseProgramLoop f p = .ok ([], p))
    ∧ (∀ (f : Nat) (p : Parser) (stmts : List Statement) (p2 : Parser),
        parseProgramLoop f p = .ok (stmts, p2) → curTokenIs p2 .EOF = true)
    ∧ (∀ (f : Nat) (p p1 p2 : Parser) (rest : List Statement) (p3 : Parser),
        ¬(curTokenIs p .EOF = true) →
        parseStatement f p = .ok (none, p1) →
        parserNextToken p1 = .ok p2 →
        parseProgramLoop f p2 = .ok (rest, p3) →
        parseProgramLoop (f + 1) p = .ok (rest, p3))
    ∧ (∀ (f : Nat) (p : Parser) (s : Statement) (p1 p2 : Parser) (rest : List Statement)
        (p3 : Parser),
        ¬(curTokenIs p .EOF = true) →
        parseStatement f p = .ok (some s, p1) →
        parserNextToken p1 = .ok p2 →
        parseProgramLoop f p2 = .ok (rest, p3) →
        parseProgramLoop (f + 1) p = .ok (s :: rest, p3)) :=
  ⟨fun f p hE => parseProgramLoop_eof f p hE,
   parseProgramLoop_final_eof,
   fun f p p1 p2 rest p3 hE hS hN hL => parseProgramLoop_step_none f p p1 p2 rest p3 hE hS hN hL,
   fun f p s p1 p2 rest p3 hE hS hN hL => parseProgramLoop_step_some f p s p1 p2 rest p3 hE hS hN hL⟩

/-- C9 witness: the loop contract evaluated at concrete parser states — a
stop at end-of-input, a skipped diagnostic-only let failure, and an appended
return statement. -/
theorem c9_parse_program_loop_contract_witness :
    parseProgramLoop 3 wRet2 = .ok ([], wRet2)
    ∧ curTokenIs wRet2 .EOF = true
    ∧ parseProgramLoop 2 (mkParser { type := .LET, literal := strChars "let" } eofTok)
        = .ok ([], { l := { input := [], position := 1, readPosition := 2, ch := nul }, curToken := eofTok, peekToken := eofTok, errors := [ expectedMsg .IDENT .EOF ] })
    ∧ parseProgramLoop 2
          (mkParser { type := .RETURN, literal := strChars "return" }
            { type := .SEMICOLON, literal := [ ';' ] })
        = .ok ([ Statement.ReturnStatement { type := .RETURN, literal := strChars "return" } ],
            wRet2) :=
  ⟨c9_parse_program_loop_contract.1 3 wRet2 rfl,
   c9_parse_program_loop_contract.2.1 1 wRet2 [] wRet2 rfl,
   c9_parse_program_loop_contract.2.2.1 1
     (mkParser { type := .LET, literal := strChars "let" } eofTok)
     { l := lexerNew [], curToken := { type := .LET, literal := strChars "let" }, peekToken := eofTok, errors := [ expectedMsg .IDENT .EOF ] }
     { l := { input := [], position := 1, readPosition := 2, ch := nul }, curToken := eofTok, peekToken := eofTok, errors := [ expectedMsg .IDENT .EOF ] }
     [] _ (by decide) rfl rfl rfl,
   c9_parse_program_loop_contract.2.2.2 1
     (mkParser { type := .RETURN, literal := strChars "return" }
       { type := .SEMICOLON, literal := [ ';' ] })
     (Statement.ReturnStatement { type := .RETURN, literal := strChars "return" })
     wRet1 wRet2 [] wRet2 (by decide) rfl rfl rfl⟩
